import Mathlib

/-!
Verification of the AutoFlow blueprint conversion and diagnostic engine
(`backend/workflow_engine.py` and the `convert-blueprint` endpoint of
`backend/server.py`).

JSON documents are modelled by the inductive type `JVal`; Python dicts are
association lists with replace-in-place insertion (`dictSet`), matching
CPython dict semantics (insertion order preserved, assignment to an existing
key overwrites the value at its original position).  Fallible Python code
(attribute errors, type errors raised on ill-typed documents) is modelled in
`Except String`.
-/

namespace AutoFlow

/-- A JSON value, as produced by `json.loads`. -/
inductive JVal where
  | str (s : String)
  | num (n : Int)
  | bool (b : Bool)
  | null
  | arr (xs : List JVal)
  | obj (fields : List (String × JVal))

/-- A Python dict with string keys, in insertion order. -/
abbrev Dict := List (String × JVal)

/-- `d.get(k)`: first (unique) binding of `k`. -/
def dictGet : Dict → String → Option JVal
  | [], _ => none
  | (k, v) :: fs, key => if k == key then some v else dictGet fs key

/-- `d[k] = v`: overwrite in place if present, else append. -/
def dictSet : Dict → String → JVal → Dict
  | [], key, v => [(key, v)]
  | (k, w) :: fs, key, v =>
      if k == key then (k, v) :: fs else (k, w) :: dictSet fs key v

/-- `d.update(e)`: sequential assignment of every binding of `e`. -/
def dictUpdate (d e : Dict) : Dict :=
  e.foldl (fun acc kv => dictSet acc kv.1 kv.2) d

/-- A Python dict from strings to strings (the module mapping tables). -/
abbrev STbl := List (String × String)

def tblGet : STbl → String → Option String
  | [], _ => none
  | (k, v) :: fs, key => if k == key then some v else tblGet fs key

def tblSet : STbl → String → String → STbl
  | [], key, v => [(key, v)]
  | (k, w) :: fs, key, v =>
      if k == key then (k, v) :: fs else (k, w) :: tblSet fs key v

def tblUpdate (t e : STbl) : STbl :=
  e.foldl (fun acc kv => tblSet acc kv.1 kv.2) t

/-- `{v: k for k, v in t.items()}`. -/
def invertTbl (t : STbl) : STbl :=
  t.foldl (fun acc kv => tblSet acc kv.2 kv.1) []

/-- `pat` is a prefix of `s` (character lists). -/
def leadMatch : List Char → List Char → Bool
  | [], _ => true
  | _ :: _, [] => false
  | a :: as, b :: bs => a == b && leadMatch as bs

/-- `pat` occurs as a contiguous run inside `s`. -/
def hasSub (pat : List Char) : List Char → Bool
  | [] => leadMatch pat []
  | c :: rest => leadMatch pat (c :: rest) || hasSub pat rest

/-- Python `pat in s` for strings: substring containment. -/
def pyIn (pat s : String) : Bool := hasSub pat.data s.data

/-- Python `str.lower()` (ASCII, as exercised by the engine). -/
def pyLower (s : String) : String := String.mk (s.data.map Char.toLower)

/-- Python `str.upper()` (ASCII, as exercised by the engine). -/
def pyUpper (s : String) : String := String.mk (s.data.map Char.toUpper)

def pyReplaceAux (pat repl : List Char) : Nat → List Char → List Char
  | 0, cs => cs
  | _ + 1, [] => []
  | f + 1, c :: rest =>
      if pat ≠ [] && leadMatch pat (c :: rest) then
        repl ++ pyReplaceAux pat repl f (List.drop (pat.length - 1) rest)
      else
        c :: pyReplaceAux pat repl f rest

/-- Python `s.replace(pat, repl)`. -/
def pyReplace (s pat repl : String) : String :=
  String.mk (pyReplaceAux pat.data repl.data s.data.length s.data)

mutual

/-- Python `repr` of a JSON value (element rendering inside containers). -/
def pyRepr : JVal → String
  | .str s => "\x27" ++ s ++ "\x27"
  | .num n => toString n
  | .bool true => "True"
  | .bool false => "False"
  | .null => "None"
  | .arr xs => "[" ++ String.intercalate ", " (pyReprList xs) ++ "]"
  | .obj fs => "\x7b" ++ String.intercalate ", " (pyReprFields fs) ++ "\x7d"

def pyReprList : List JVal → List String
  | [] => []
  | v :: vs => pyRepr v :: pyReprList vs

def pyReprFields : List (String × JVal) → List String
  | [] => []
  | (k, v) :: fs => ("\x27" ++ k ++ "\x27: " ++ pyRepr v) :: pyReprFields fs

end

/-- Python `str()` of a JSON value. -/
def pyStr : JVal → String
  | .str s => s
  | .num n => toString n
  | .bool true => "True"
  | .bool false => "False"
  | .null => "None"
  | .arr xs => "[" ++ String.intercalate ", " (pyReprList xs) ++ "]"
  | .obj fs => "\x7b" ++ String.intercalate ", " (pyReprFields fs) ++ "\x7d"

/-- Python `str()` of an optional value; a missing value is `None`. -/
def pyStrOpt : Option JVal → String
  | none => "None"
  | some v => pyStr v

/-- Python truthiness of a JSON value. -/
def jTruthy : JVal → Bool
  | .str s => !(s == "")
  | .num n => !(n == 0)
  | .bool b => b
  | .null => false
  | .arr xs => !xs.isEmpty
  | .obj fs => !fs.isEmpty

/-- Truthiness of `d.get(k)` (a missing key is `None`, hence falsy). -/
def jTruthyOpt : Option JVal → Bool
  | none => false
  | some v => jTruthy v

/-- Falsiness of an optional string (`None` or the empty string). -/
def strFalsyOpt : Option String → Bool
  | none => true
  | some s => s == ""

/-! ## Module Registry (`MAKE_TO_N8N_MAPPING`, `N8N_TO_MAKE_MAPPING`) -/

/-- The static Make.com → n8n module mapping table, in source order. -/
def MAKE_TO_N8N_MAPPING : STbl :=
  [("google-sheets:WatchRows", "n8n-nodes-base.googleSheetsTrigger"),
   ("google-sheets:SearchRows", "n8n-nodes-base.googleSheets"),
   ("google-sheets:AddRow", "n8n-nodes-base.googleSheets"),
   ("google-sheets:UpdateRow", "n8n-nodes-base.googleSheets"),
   ("google-drive:WatchFiles", "n8n-nodes-base.googleDriveTrigger"),
   ("google-drive:UploadFile", "n8n-nodes-base.googleDrive"),
   ("openai:CreateChatCompletion", "n8n-nodes-base.openAi"),
   ("openai:CreateImage", "n8n-nodes-base.openAi"),
   ("openai:CreateCompletion", "n8n-nodes-base.openAi"),
   ("http:ActionSendData", "n8n-nodes-base.httpRequest"),
   ("http:ActionSendDataOAuth2", "n8n-nodes-base.httpRequest"),
   ("webhook:CustomWebHook", "n8n-nodes-base.webhook"),
   ("wordpress:CreatePost", "n8n-nodes-base.wordpress"),
   ("wordpress:UpdatePost", "n8n-nodes-base.wordpress"),
   ("wordpress:GetPost", "n8n-nodes-base.wordpress"),
   ("instagram:CreateMedia", "n8n-nodes-base.httpRequest"),
   ("facebook:CreatePost", "n8n-nodes-base.facebookGraphApi"),
   ("twitter:CreateTweet", "n8n-nodes-base.twitter"),
   ("youtube:UploadVideo", "n8n-nodes-base.youTube"),
   ("builtin:Sleep", "n8n-nodes-base.wait"),
   ("builtin:SetVariable", "n8n-nodes-base.set"),
   ("builtin:TextAggregator", "n8n-nodes-base.merge"),
   ("json:ParseJSON", "n8n-nodes-base.code"),
   ("email:ActionSendEmail", "n8n-nodes-base.emailSend"),
   ("gmail:ActionSendEmail", "n8n-nodes-base.gmail"),
   ("gmail:TriggerWatchEmails", "n8n-nodes-base.gmail"),
   ("hubspot:CreateContact", "n8n-nodes-base.hubspot"),
   ("hubspot:UpdateContact", "n8n-nodes-base.hubspot"),
   ("hubspot:SearchContacts", "n8n-nodes-base.hubspot")]

/-- The reverse table: the forward table inverted (last write wins), then
updated with the n8n nodes that have no direct Make equivalent. -/
def N8N_TO_MAKE_MAPPING : STbl :=
  tblUpdate (invertTbl MAKE_TO_N8N_MAPPING)
    [("n8n-nodes-base.start", "webhook:CustomWebHook"),
     ("n8n-nodes-base.set", "builtin:SetVariable"),
     ("n8n-nodes-base.code", "json:ParseJSON"),
     ("n8n-nodes-base.if", "builtin:Router"),
     ("n8n-nodes-base.merge", "builtin:TextAggregator"),
     ("n8n-nodes-base.wait", "builtin:Sleep")]

/-! ## WorkflowConverter -/

/-- `ConversionResult` dataclass. -/
structure ConversionResult where
  success : Bool
  converted_json : String
  warnings : List String
  fallback_modules : List String
  comments : List String

/-- Module resolution step of `convert_make_to_n8n` (lines 131-138): the
forward table lookup, with the HTTP-request fallback on a falsy hit.
Returns the n8n node type, the fallback flag, the `fallback_modules`
entries and the `warnings` entries this step appends. -/
def resolveMakeModule (module_name : String) :
    String × Bool × List String × List String :=
  let t := tblGet MAKE_TO_N8N_MAPPING module_name
  if strFalsyOpt t then
    ("n8n-nodes-base.httpRequest", true,
     ["Module \x27" ++ module_name ++ "\x27 converted to HTTP Request"],
     ["No direct n8n equivalent for \x27" ++ module_name ++
      "\x27, using HTTP Request"])
  else
    (t.getD "", false, [], [])

/-- Node resolution step of `convert_n8n_to_make` (lines 216-223). -/
def resolveN8nNode (node_type : String) :
    String × Bool × List String × List String :=
  let t := tblGet N8N_TO_MAKE_MAPPING node_type
  if strFalsyOpt t then
    ("http:ActionSendData", true,
     ["Node \x27" ++ node_type ++ "\x27 converted to HTTP module"],
     ["No direct Make.com equivalent for \x27" ++ node_type ++
      "\x27, using HTTP module"])
  else
    (t.getD "", false, [], [])

/-- `enumerate` over a non-list raises `TypeError`. -/
def asList : JVal → Except String (List JVal)
  | .arr xs => .ok xs
  | _ => .error "TypeError: object is not iterable"

/-- `.get` on a non-dict raises `AttributeError`. -/
def asObj : JVal → Except String Dict
  | .obj fs => .ok fs
  | _ => .error "AttributeError: object has no attribute get"

/-- A value that must be a string; the engine raises a `TypeError`
downstream (substring test or dict lookup) when it is not. -/
def asStr : JVal → Except String String
  | .str s => .ok s
  | _ => .error "TypeError: expected a string"

/-- `d.get(k, default dict)`: a present non-dict value raises downstream. -/
def asObjD : Option JVal → Except String Dict
  | none => .ok []
  | some v => asObj v

/-- `_convert_make_params_to_n8n`. -/
def convertMakeParamsToN8n (module_name : String) (params mapper : Dict) :
    Except String Dict :=
  if pyIn "google-sheets" module_name then
    let c1 := match dictGet params "spreadsheetId" with
      | some v => dictSet [] "sheetId" v
      | none => []
    let c2 := match dictGet params "worksheetId" with
      | some _ => dictSet c1 "range" (.str "A:Z")
      | none => c1
    .ok c2
  else if pyIn "openai" module_name then
    let c1 := match dictGet params "model" with
      | some v => dictSet [] "model" v
      | none => []
    let c2 := match dictGet params "max_tokens" with
      | some v => dictSet c1 "maxTokens" v
      | none => c1
    let c3 := match dictGet mapper "messages" with
      | some v => dictSet c2 "messages" (.obj [("values", v)])
      | none => c2
    .ok c3
  else if pyIn "http" module_name then
    let c1 := match dictGet mapper "url" with
      | some v => dictSet [] "url" v
      | none => []
    match dictGet params "method" with
    | some (.str m) => .ok (dictSet c1 "method" (.str (pyUpper m)))
    | some _ => .error "AttributeError: object has no attribute upper"
    | none => .ok c1
  else
    .ok (dictUpdate (dictUpdate [] params) mapper)

/-- `_convert_n8n_params_to_make`. -/
def convertN8nParamsToMake (node_type : String) (params : Dict) :
    Except String Dict :=
  if pyIn "googleSheets" node_type then
    let c1 := match dictGet params "sheetId" with
      | some v => dictSet [] "spreadsheetId" v
      | none => []
    let c2 := match dictGet params "range" with
      | some _ => dictSet c1 "worksheetId" (.str "gid=0")
      | none => c1
    .ok c2
  else if pyIn "openAi" node_type then
    let c1 := match dictGet params "model" with
      | some v => dictSet [] "model" v
      | none => []
    let c2 := match dictGet params "maxTokens" with
      | some v => dictSet c1 "max_tokens" v
      | none => c1
    .ok c2
  else if pyIn "httpRequest" node_type then
    let c1 := match dictGet params "url" with
      | some v => dictSet [] "url" v
      | none => []
    match dictGet params "method" with
    | some (.str m) => .ok (dictSet c1 "method" (.str (pyLower m)))
    | some _ => .error "AttributeError: object has no attribute lower"
    | none => .ok c1
  else
    .ok (dictUpdate [] params)

/-- `_requires_credentials`. -/
def requiresCredentials (node_type : String) : Bool :=
  node_type == "n8n-nodes-base.googleSheets" ||
  node_type == "n8n-nodes-base.googleSheetsTrigger" ||
  node_type == "n8n-nodes-base.openAi" ||
  node_type == "n8n-nodes-base.wordpress" ||
  node_type == "n8n-nodes-base.gmail"

/-- `_get_n8n_credentials`. -/
def getN8nCredentials (node_type : String) : Dict :=
  if node_type == "n8n-nodes-base.googleSheets" then
    [("googleSheetsOAuth2Api",
      .obj [("id", .str "google_sheets"), ("name", .str "Google Sheets")])]
  else if node_type == "n8n-nodes-base.googleSheetsTrigger" then
    [("googleSheetsOAuth2Api",
      .obj [("id", .str "google_sheets"), ("name", .str "Google Sheets")])]
  else if node_type == "n8n-nodes-base.openAi" then
    [("openAiApi", .obj [("id", .str "openai"), ("name", .str "OpenAI")])]
  else if node_type == "n8n-nodes-base.wordpress" then
    [("wordpressApi",
      .obj [("id", .str "wordpress"), ("name", .str "WordPress")])]
  else if node_type == "n8n-nodes-base.gmail" then
    [("gmailOAuth2", .obj [("id", .str "gmail"), ("name", .str "Gmail")])]
  else
    []

/-- One iteration of the module loop of `convert_make_to_n8n` (lines
125-157).  Returns the built node, `str(module_id)` (the `node_positions`
key), the `fallback_modules` entries and the `warnings` entries. -/
def convertMakeModule (i : Nat) (m : JVal) :
    Except String (Dict × String × List String × List String) := do
  let mObj ← asObj m
  let module_id := (dictGet mObj "id").getD (.num (Int.ofNat i + 1))
  let module_name ← asStr ((dictGet mObj "module").getD (.str ""))
  let module_params ← asObjD (dictGet mObj "parameters")
  let module_mapper ← asObjD (dictGet mObj "mapper")
  let r := resolveMakeModule module_name
  let node_params ← convertMakeParamsToN8n module_name module_params module_mapper
  let stepName := "Step " ++ pyStr module_id
  let node0 : Dict :=
    [("parameters", .obj node_params),
     ("name", .str stepName),
     ("type", .str r.1),
     ("typeVersion", .num 1),
     ("position", .arr [.num (240 + 220 * Int.ofNat i), .num 300])]
  let node :=
    if requiresCredentials r.1 then
      dictSet node0 "credentials" (.obj (getN8nCredentials r.1))
    else node0
  .ok (node, pyStr module_id, r.2.2.1, r.2.2.2)

/-- Accumulated output of the module loop of `convert_make_to_n8n`. -/
structure FlowOut where
  nodes : List JVal
  positions : STbl
  warnings : List String
  fallbacks : List String

/-- The module loop of `convert_make_to_n8n`, threading `node_positions`
through `node_positions[str(module_id)] = f"Step {module_id}"`. -/
def processFlow : List JVal → Nat → STbl → Except String FlowOut
  | [], _, poss => .ok ⟨[], poss, [], []⟩
  | m :: rest, i, poss => do
    let r ← convertMakeModule i m
    let o ← processFlow rest (i + 1) (tblSet poss r.2.1 ("Step " ++ r.2.1))
    .ok ⟨.obj r.1 :: o.nodes, o.positions, r.2.2.2 ++ o.warnings,
         r.2.2.1 ++ o.fallbacks⟩

/-- `_convert_make_connections_to_n8n`: for every non-terminal index `i`,
look up the names of module `i` and module `i+1` in `node_positions` and
assign `connections[current] = {"main": [[next]]}` (dict overwrite). -/
def buildConns : List JVal → Nat → STbl → Dict → Except String Dict
  | [], _, _, conns => .ok conns
  | [_], _, _, conns => .ok conns
  | m :: m2 :: rest, i, poss, conns => do
    let mObj ← asObj m
    let m2Obj ← asObj m2
    let current :=
      tblGet poss (pyStr ((dictGet mObj "id").getD (.num (Int.ofNat i + 1))))
    let next :=
      tblGet poss (pyStr ((dictGet m2Obj "id").getD (.num (Int.ofNat i + 2))))
    let conns2 :=
      if !strFalsyOpt current && !strFalsyOpt next then
        dictSet conns (current.getD "")
          (.obj [("main", .arr [.arr [.str (next.getD "")]])])
      else conns
    buildConns (m2 :: rest) (i + 1) poss conns2

/-- Structured output of a conversion body: the assembled target document
plus the warning, fallback and comment lists. -/
structure ConvOut where
  doc : Dict
  warnings : List String
  fallbacks : List String
  comments : List String

/-- The `try` body of `convert_make_to_n8n` (lines 111-184). -/
def convert_make_to_n8n_body (make_json : Dict) : Except String ConvOut := do
  let nameV := (dictGet make_json "name").getD (.str "Converted Workflow")
  let flowV := (dictGet make_json "flow").getD (.arr [])
  let flow ← asList flowV
  let fo ← processFlow flow 0 []
  let connections ← buildConns flow 0 fo.positions []
  let scenario_name ← asStr nameV
  let workflow : Dict :=
    [("name", nameV),
     ("nodes", .arr fo.nodes),
     ("connections", .obj connections),
     ("active", .bool false),
     ("settings", .obj [("executionOrder", .str "v1")]),
     ("versionId", .str "1"),
     ("meta", .obj [("templateCredsSetupCompleted", .bool false)]),
     ("id", .str (pyReplace (pyLower scenario_name) " " "-"))]
  .ok ⟨workflow, fo.warnings, fo.fallbacks,
       "Converted from Make.com scenario" :: fo.fallbacks⟩

mutual

/-- `json.dumps` (compact rendering; only its emptiness is observed). -/
def dumpJson : JVal → String
  | .str s => "\x22" ++ s ++ "\x22"
  | .num n => toString n
  | .bool true => "true"
  | .bool false => "false"
  | .null => "null"
  | .arr xs => "[" ++ String.intercalate ", " (dumpJsonList xs) ++ "]"
  | .obj fs => "\x7b" ++ String.intercalate ", " (dumpJsonFields fs) ++ "\x7d"

def dumpJsonList : List JVal → List String
  | [] => []
  | v :: vs => dumpJson v :: dumpJsonList vs

def dumpJsonFields : List (String × JVal) → List String
  | [] => []
  | (k, v) :: fs => ("\x22" ++ k ++ "\x22: " ++ dumpJson v) :: dumpJsonFields fs

end

/-- `convert_make_to_n8n`: the body wrapped in the `try`/`except` that turns
any exception into a failed `ConversionResult`. -/
def convert_make_to_n8n (make_json : Dict) : ConversionResult :=
  match convert_make_to_n8n_body make_json with
  | .ok o => ⟨true, dumpJson (.obj o.doc), o.warnings, o.fallbacks, o.comments⟩
  | .error e => ⟨false, "", ["Conversion failed: " ++ e], [], []⟩

/-- Values that Python can use as dict keys; a list or dict key raises
`TypeError: unhashable type`. -/
def hashableCheck : JVal → Except String Unit
  | .arr _ => .error "TypeError: unhashable type"
  | .obj _ => .error "TypeError: unhashable type"
  | _ => .ok ()

/-- One iteration of the node loop of `convert_n8n_to_make` (lines
211-244).  Returns the built Make module, the `fallback_modules` entries
and the `warnings` entries. -/
def convertN8nNode (i : Nat) (n : JVal) :
    Except String (Dict × List String × List String) := do
  let nObj ← asObj n
  let node_type ← asStr ((dictGet nObj "type").getD (.str ""))
  let node_nameV := (dictGet nObj "name").getD (.str ("Node " ++ toString i))
  let node_params ← asObjD (dictGet nObj "parameters")
  let r := resolveN8nNode node_type
  let make_params ← convertN8nParamsToMake node_type node_params
  hashableCheck node_nameV
  let moduleD : Dict :=
    [("id", .num (Int.ofNat i + 1)),
     ("module", .str r.1),
     ("version", .num 1),
     ("parameters", .obj make_params),
     ("mapper", .obj []),
     ("metadata",
      .obj [("designer",
             .obj [("x", .num (300 * Int.ofNat i)), ("y", .num 0)])])]
  .ok (moduleD, r.2.2.1, r.2.2.2)

/-- The node loop of `convert_n8n_to_make`. -/
def processNodes : List JVal → Nat →
    Except String (List JVal × List String × List String)
  | [], _ => .ok ([], [], [])
  | n :: rest, i => do
    let r ← convertN8nNode i n
    let o ← processNodes rest (i + 1)
    .ok (.obj r.1 :: o.1, r.2.2 ++ o.2.1, r.2.1 ++ o.2.2)

/-- The `try` body of `convert_n8n_to_make` (lines 197-274). -/
def convert_n8n_to_make_body (n8n_json : Dict) : Except String ConvOut := do
  let workflow_name := (dictGet n8n_json "name").getD (.str "Converted Scenario")
  let nodesV := (dictGet n8n_json "nodes").getD (.arr [])
  let _connections := (dictGet n8n_json "connections").getD (.obj [])
  let nodes ← asList nodesV
  let po ← processNodes nodes 0
  let scenario : Dict :=
    [("name", workflow_name),
     ("flow", .arr po.1),
     ("metadata",
      .obj [("instant", .bool false),
            ("version", .num 1),
            ("scenario",
             .obj [("roundtrips", .num 1), ("maxErrors", .num 3),
                   ("autoCommit", .bool true), ("sequential", .bool false)]),
            ("designer", .obj [("orphans", .arr [])]),
            ("zone", .str "eu1.make.com")])]
  .ok ⟨scenario, po.2.1, po.2.2, "Converted from n8n workflow" :: po.2.2⟩

/-- `convert_n8n_to_make`: body wrapped in the `try`/`except`. -/
def convert_n8n_to_make (n8n_json : Dict) : ConversionResult :=
  match convert_n8n_to_make_body n8n_json with
  | .ok o => ⟨true, dumpJson (.obj o.doc), o.warnings, o.fallbacks, o.comments⟩
  | .error e => ⟨false, "", ["Conversion failed: " ++ e], [], []⟩

/-! ## WorkflowDebugger -/

/-- `WorkflowPlatform` enum. -/
inductive WorkflowPlatform where
  | make
  | n8n
deriving DecidableEq

/-- `ErrorType` enum. -/
inductive ErrorType where
  | module_not_found
  | connection_error
  | parameter_missing
  | credential_error
  | type_mismatch
  | logic_error
deriving DecidableEq

/-- `WorkflowError` dataclass. -/
structure WorkflowError where
  error_type : ErrorType
  module_id : String
  module_name : String
  description : String
  suggested_fix : String
  severity : String
deriving DecidableEq

/-- Per-module checks of `_analyze_make_workflow` (lines 416-456). -/
def analyzeMakeModule (m : JVal) : Except String (List WorkflowError) := do
  let mObj ← asObj m
  let module_id := pyStr ((dictGet mObj "id").getD (.str "unknown"))
  let module_name ← asStr ((dictGet mObj "module").getD (.str ""))
  let parameters ← asObjD (dictGet mObj "parameters")
  if pyIn "google-sheets" module_name then
    if !jTruthyOpt (dictGet parameters "spreadsheetId") then
      .ok [⟨.parameter_missing, module_id, module_name,
            "Missing required spreadsheet ID",
            "Add spreadsheet ID: \x7b\x7bconnection.drive.spreadsheetId\x7d\x7d",
            "critical"⟩]
    else .ok []
  else if pyIn "openai" module_name then
    if !jTruthyOpt (dictGet parameters "model") then
      .ok [⟨.parameter_missing, module_id, module_name,
            "Missing required model parameter",
            "Add model parameter: \x27gpt-4\x27 or \x27gpt-3.5-turbo\x27",
            "critical"⟩]
    else .ok []
  else if pyIn "http" module_name then do
    let mapper ← asObjD (dictGet mObj "mapper")
    if !jTruthyOpt (dictGet mapper "url") &&
       !jTruthyOpt (dictGet parameters "url") then
      .ok [⟨.parameter_missing, module_id, module_name,
            "Missing required URL parameter",
            "Add URL in mapper or parameters",
            "critical"⟩]
    else .ok []
  else .ok []

def analyzeMakeFlow : List JVal → Except String (List WorkflowError)
  | [] => .ok []
  | m :: rest => do
    let es ← analyzeMakeModule m
    let rs ← analyzeMakeFlow rest
    .ok (es ++ rs)

/-- `_analyze_make_workflow`. -/
def analyze_make_workflow (make_json : Dict) :
    Except String (List WorkflowError) := do
  let flow ← asList ((dictGet make_json "flow").getD (.arr []))
  analyzeMakeFlow flow

/-- `node.get("name", "unknown")` rendered as the string used in the
`module_id` field of a Finding; a non-string node name is modelled by its
string rendering. -/
def n8nNodeName (nObj : Dict) : String :=
  match dictGet nObj "name" with
  | none => "unknown"
  | some (.str s) => s
  | some v => pyStr v

/-- Per-node checks of `_analyze_n8n_workflow` (lines 465-504). -/
def analyzeN8nNode (n : JVal) : Except String (List WorkflowError) := do
  let nObj ← asObj n
  let node_name := n8nNodeName nObj
  let node_type ← asStr ((dictGet nObj "type").getD (.str ""))
  let parameters ← asObjD (dictGet nObj "parameters")
  if pyIn "googleSheets" node_type then
    if !jTruthyOpt (dictGet parameters "sheetId") then
      .ok [⟨.parameter_missing, node_name, node_type,
            "Missing required sheet ID",
            "Add sheetId parameter with spreadsheet ID",
            "critical"⟩]
    else .ok []
  else if pyIn "openAi" node_type then
    if !jTruthyOpt (dictGet parameters "model") then
      .ok [⟨.parameter_missing, node_name, node_type,
            "Missing required model parameter",
            "Add model parameter: \x27gpt-4\x27 or \x27gpt-3.5-turbo\x27",
            "critical"⟩]
    else .ok []
  else if pyIn "httpRequest" node_type then
    if !jTruthyOpt (dictGet parameters "url") then
      .ok [⟨.parameter_missing, node_name, node_type,
            "Missing required URL parameter",
            "Add url parameter with target endpoint",
            "critical"⟩]
    else .ok []
  else .ok []

def analyzeN8nNodes : List JVal → Except String (List WorkflowError)
  | [] => .ok []
  | n :: rest => do
    let es ← analyzeN8nNode n
    let rs ← analyzeN8nNodes rest
    .ok (es ++ rs)

/-- `_analyze_n8n_workflow`. -/
def analyze_n8n_workflow (n8n_json : Dict) :
    Except String (List WorkflowError) := do
  let nodes ← asList ((dictGet n8n_json "nodes").getD (.arr []))
  analyzeN8nNodes nodes

/-- `WorkflowDebugger.analyze_workflow`: platform dispatch. -/
def analyze_workflow (workflow_json : Dict) (platform : WorkflowPlatform) :
    Except String (List WorkflowError) :=
  match platform with
  | .make => analyze_make_workflow workflow_json
  | .n8n => analyze_n8n_workflow workflow_json

/-- `module.setdefault(outer, {})[inner] = v`; raises when the existing
`outer` value is not a dict. -/
def setIn (m : Dict) (outer inner : String) (v : JVal) : Except String Dict :=
  match dictGet m outer with
  | none => .ok (dictSet m outer (.obj [(inner, v)]))
  | some (.obj fs) => .ok (dictSet m outer (.obj (dictSet fs inner v)))
  | some _ => .error "TypeError: object does not support item assignment"

/-- The patch one error applies to one Make module (lines 525-533):
patch only when `str(module.get("id")) == error.module_id`. -/
def patchMakeModule (e : WorkflowError) (m : Dict) : Except String Dict :=
  if pyStrOpt (dictGet m "id") == e.module_id then
    if e.error_type == ErrorType.parameter_missing then
      if pyIn "spreadsheet" (pyLower e.description) then
        setIn m "parameters" "spreadsheetId"
          (.str "\x7b\x7bconnection.drive.spreadsheetId\x7d\x7d")
      else if pyIn "model" (pyLower e.description) then
        setIn m "parameters" "model" (.str "gpt-4")
      else if pyIn "url" (pyLower e.description) then
        setIn m "mapper" "url" (.str "https://api.example.com")
      else .ok m
    else .ok m
  else .ok m

def fixOneMakeError (e : WorkflowError) : List JVal → Except String (List JVal)
  | [] => .ok []
  | m :: rest => do
    let mObj ← asObj m
    let m2 ← patchMakeModule e mObj
    let rest2 ← fixOneMakeError e rest
    .ok (.obj m2 :: rest2)

def fixMakeFlow : List WorkflowError → List JVal → Except String (List JVal)
  | [], flow => .ok flow
  | e :: es, flow => do
    let f2 ← fixOneMakeError e flow
    fixMakeFlow es f2

/-- `_fix_make_workflow`: nested loop over errors then modules; with no
errors (or no `"flow"` key) nothing is iterated and the workflow is
returned unchanged. -/
def fix_make_workflow (workflow : Dict) (errors : List WorkflowError) :
    Except String Dict :=
  match errors with
  | [] => .ok workflow
  | _ :: _ =>
    match dictGet workflow "flow" with
    | none => .ok workflow
    | some (.arr flow) =>
        (fixMakeFlow errors flow).map
          (fun f2 => dictSet workflow "flow" (.arr f2))
    | some _ => .error "TypeError: iteration over non-sequence"

/-- Whether an error references an n8n node:
`node.get("name") == error.module_id` (only a string name can match). -/
def refN8nNode (e : WorkflowError) (nObj : Dict) : Bool :=
  match dictGet nObj "name" with
  | some (.str s) => s == e.module_id
  | _ => false

/-- The patch one error applies to one n8n node (lines 543-551). -/
def patchN8nNode (e : WorkflowError) (n : Dict) : Except String Dict :=
  if refN8nNode e n then
    if e.error_type == ErrorType.parameter_missing then
      if pyIn "sheet" (pyLower e.description) then
        setIn n "parameters" "sheetId" (.str "your-spreadsheet-id")
      else if pyIn "model" (pyLower e.description) then
        setIn n "parameters" "model" (.str "gpt-4")
      else if pyIn "url" (pyLower e.description) then
        setIn n "parameters" "url" (.str "https://api.example.com")
      else .ok n
    else .ok n
  else .ok n

def fixOneN8nError (e : WorkflowError) : List JVal → Except String (List JVal)
  | [] => .ok []
  | n :: rest => do
    let nObj ← asObj n
    let n2 ← patchN8nNode e nObj
    let rest2 ← fixOneN8nError e rest
    .ok (.obj n2 :: rest2)

def fixN8nNodes : List WorkflowError → List JVal → Except String (List JVal)
  | [], nodes => .ok nodes
  | e :: es, nodes => do
    let f2 ← fixOneN8nError e nodes
    fixN8nNodes es f2

/-- `_fix_n8n_workflow`. -/
def fix_n8n_workflow (workflow : Dict) (errors : List WorkflowError) :
    Except String Dict :=
  match errors with
  | [] => .ok workflow
  | _ :: _ =>
    match dictGet workflow "nodes" with
    | none => .ok workflow
    | some (.arr nodes) =>
        (fixN8nNodes errors nodes).map
          (fun f2 => dictSet workflow "nodes" (.arr f2))
    | some _ => .error "TypeError: iteration over non-sequence"

/-- `WorkflowDebugger.generate_fix`: platform dispatch over a (shallow)
copy of the workflow. -/
def generate_fix (workflow_json : Dict) (errors : List WorkflowError)
    (platform : WorkflowPlatform) : Except String Dict :=
  match platform with
  | .make => fix_make_workflow workflow_json errors
  | .n8n => fix_n8n_workflow workflow_json errors

/-! ## The Convert operation (`POST /convert-blueprint`, `server.py`)

The endpoint validates its input and only then invokes the conversion
engine.  `json.loads` is called purely for validation (its result is
discarded), so it is modelled by a syntactic validity checker for the JSON
grammar accepted by Python's parser (including `NaN`/`Infinity`). -/

def jsonWs (c : Char) : Bool :=
  c == ' ' || c == '\t' || c == '\n' || c == '\r'

def skipWs : List Char → List Char
  | [] => []
  | c :: cs => if jsonWs c then skipWs cs else c :: cs

/-- Match a literal tail, returning the remaining input. -/
def jsonLit : List Char → List Char → Option (List Char)
  | [], cs => some cs
  | p :: ps, c :: cs => if p == c then jsonLit ps cs else none
  | _ :: _, [] => none

def isDig (c : Char) : Bool := 48 ≤ c.toNat && c.toNat ≤ 57

def isHexDig (c : Char) : Bool :=
  isDig c || (97 ≤ c.toNat && c.toNat ≤ 102) ||
  (65 ≤ c.toNat && c.toNat ≤ 70)

def dropDigits : List Char → List Char
  | [] => []
  | c :: cs => if isDig c then dropDigits cs else c :: cs

def oneOrMoreDigits : List Char → Option (List Char)
  | [] => none
  | c :: rest => if isDig c then some (dropDigits rest) else none

/-- Integer part of a JSON number: `0` or a nonzero digit run. -/
def jsonIntPart : List Char → Option (List Char)
  | [] => none
  | c :: rest =>
    if c == '0' then some rest
    else if isDig c then some (dropDigits rest) else none

/-- Optional fraction and exponent of a JSON number. -/
def jsonNumTail (cs : List Char) : Option (List Char) :=
  let afterFrac :=
    match cs with
    | '.' :: rest => oneOrMoreDigits rest
    | _ => some cs
  match afterFrac with
  | none => none
  | some cs2 =>
    match cs2 with
    | c :: rest =>
      if c == 'e' || c == 'E' then
        match rest with
        | s :: rest2 =>
          if s == '+' || s == '-' then oneOrMoreDigits rest2
          else oneOrMoreDigits rest
        | [] => none
      else some cs2
    | [] => some cs2

def jsonNum (cs : List Char) : Option (List Char) :=
  (jsonIntPart cs).bind jsonNumTail

/-- Body of a JSON string after the opening quote. -/
def jsonStrTail : Nat → List Char → Option (List Char)
  | 0, _ => none
  | _ + 1, [] => none
  | f + 1, c :: cs =>
    if c == '\"' then some cs
    else if c == '\\' then
      match cs with
      | [] => none
      | e :: rest =>
        if e == '\"' || e == '\\' || e == '/' || e == 'b' || e == 'f' ||
           e == 'n' || e == 'r' || e == 't' then jsonStrTail f rest
        else if e == 'u' then
          match rest with
          | h1 :: h2 :: h3 :: h4 :: rest2 =>
            if isHexDig h1 && isHexDig h2 && isHexDig h3 && isHexDig h4 then
              jsonStrTail f rest2
            else none
          | _ => none
        else none
    else if c.toNat < 32 then none
    else jsonStrTail f cs

mutual

/-- Parse one JSON value, returning the remaining input (fuel-indexed). -/
def jsonVal : Nat → List Char → Option (List Char)
  | 0, _ => none
  | f + 1, cs =>
    match cs with
    | [] => none
    | c :: rest =>
      if c == '\x7b' then jsonObjBody f (skipWs rest)
      else if c == '[' then jsonArrBody f (skipWs rest)
      else if c == '\"' then jsonStrTail (rest.length + 1) rest
      else if c == 't' then jsonLit ['r', 'u', 'e'] rest
      else if c == 'f' then jsonLit ['a', 'l', 's', 'e'] rest
      else if c == 'n' then jsonLit ['u', 'l', 'l'] rest
      else if c == 'N' then jsonLit ['a', 'N'] rest
      else if c == 'I' then jsonLit ['n', 'f', 'i', 'n', 'i', 't', 'y'] rest
      else if c == '-' then
        match rest with
        | 'I' :: rest2 => jsonLit ['n', 'f', 'i', 'n', 'i', 't', 'y'] rest2
        | _ => jsonNum rest
      else if isDig c then jsonNum cs
      else none

/-- Object body after `\x7b` (whitespace skipped). -/
def jsonObjBody : Nat → List Char → Option (List Char)
  | 0, _ => none
  | f + 1, cs =>
    match cs with
    | '\x7d' :: rest => some rest
    | _ => jsonMembers f cs

/-- One or more `"key": value` members, up to the closing brace. -/
def jsonMembers : Nat → List Char → Option (List Char)
  | 0, _ => none
  | f + 1, cs =>
    match cs with
    | '\"' :: rest =>
      match jsonStrTail (rest.length + 1) rest with
      | none => none
      | some afterKey =>
        match skipWs afterKey with
        | ':' :: afterColon =>
          match jsonVal f (skipWs afterColon) with
          | none => none
          | some afterVal =>
            match skipWs afterVal with
            | '\x7d' :: rest2 => some rest2
            | ',' :: rest2 => jsonMembers f (skipWs rest2)
            | _ => none
        | _ => none
    | _ => none

/-- Array body after `[` (whitespace skipped). -/
def jsonArrBody : Nat → List Char → Option (List Char)
  | 0, _ => none
  | f + 1, cs =>
    match cs with
    | ']' :: rest => some rest
    | _ => jsonElems f cs

/-- One or more array elements, up to the closing bracket. -/
def jsonElems : Nat → List Char → Option (List Char)
  | 0, _ => none
  | f + 1, cs =>
    match jsonVal f cs with
    | none => none
    | some afterVal =>
      match skipWs afterVal with
      | ']' :: rest => some rest
      | ',' :: rest => jsonElems f (skipWs rest)
      | _ => none

end

/-- `json.loads(s)` succeeds: one JSON value surrounded by whitespace. -/
def json_valid (s : String) : Bool :=
  match jsonVal (4 * s.data.length + 8) (skipWs s.data) with
  | some rest => (skipWs rest).isEmpty
  | none => false

/-- `PlatformType` enum of `server.py`. -/
inductive PlatformType where
  | make
  | n8n
deriving DecidableEq

/-- `SubscriptionTier` enum of `server.py`. -/
inductive SubscriptionTier where
  | free
  | pro
  | creator
deriving DecidableEq

/-- `AIModel` enum of `server.py`. -/
inductive AIModel where
  | gpt4
  | claude
deriving DecidableEq

/-- `BlueprintConversionRequest` model. -/
structure BlueprintConversionRequest where
  blueprint_json : String
  source_platform : PlatformType
  target_platform : PlatformType
  ai_model : AIModel
deriving DecidableEq

/-- Outcome of the `convert_blueprint` handler before any external call:
either an `HTTPException` (status code and detail) raised by a validation
check, or control reaching the invocation of the conversion engine
(`convert_blueprint_with_ai`, an external Generation Service call). -/
inductive ConvertOutcome where
  | rejected (status : Nat) (detail : String)
  | engineInvoked (blueprint_json : String) (source target : PlatformType)
      (ai_model : AIModel)
deriving DecidableEq

/-- The validation prefix of the `convert_blueprint` endpoint
(lines 2643-2667 of `server.py`): tier gate, equal-platform check, JSON
well-formedness check, then engine invocation. -/
def convert_blueprint (tier : SubscriptionTier)
    (request : BlueprintConversionRequest) : ConvertOutcome :=
  if tier == .free then
    .rejected 403
      "Blueprint conversion is a Pro feature. Please upgrade your subscription."
  else if request.source_platform == request.target_platform then
    .rejected 400 "Source and target platforms must be different"
  else if !json_valid request.blueprint_json then
    .rejected 400 "Invalid JSON format in blueprint"
  else
    .engineInvoked request.blueprint_json request.source_platform
      request.target_platform request.ai_model

/-! ## Concrete documents used by the scenarios -/

/-- The two-node Make blueprint of spec Scenario 1. -/
def scenario1 : Dict :=
  [("name", .str "Test Workflow"),
   ("flow", .arr
     [.obj [("id", .num 1), ("module", .str "webhook:webhook"),
            ("parameters", .obj [])],
      .obj [("id", .num 2), ("module", .str "email:send"),
            ("parameters",
             .obj [("to", .str "\x7b\x7b1.data.email\x7d\x7d"),
                   ("subject", .str "...")])]])]

/-! ## General lemmas about the embedding -/

theorem ebind_ok {α β : Type} {x : Except String α} {f : α → Except String β}
    {b : β} : x >>= f = .ok b ↔ ∃ a, x = .ok a ∧ f a = .ok b := by
  cases x <;> simp [Bind.bind, Except.bind]

theorem emap_ok {α β : Type} {x : Except String α} {f : α → β} {b : β} :
    x.map f = .ok b ↔ ∃ a, x = .ok a ∧ f a = b := by
  cases x <;> simp [Except.map]

theorem tblGet_mem : ∀ {t : STbl} {k v : String},
    tblGet t k = some v → (k, v) ∈ t := by
  intro t
  induction t with
  | nil => intro k v h; simp [tblGet] at h
  | cons p rest ih =>
    intro k v h
    obtain ⟨k', v'⟩ := p
    simp only [tblGet] at h
    by_cases hk : (k' == k) = true
    · rw [if_pos hk] at h
      obtain rfl : v' = v := by injection h
      obtain rfl : k' = k := by simpa using hk
      exact List.mem_cons_self _ _
    · rw [if_neg hk] at h
      exact List.mem_cons_of_mem _ (ih h)

/-! ## C1 -/

/-- C1, counterexample: neither `email:send` nor `webhook:webhook` is a key
of the forward mapping table, so converting the Scenario 1 blueprint emits
a fallback warning for both nodes (the claim asserts no fallback warning
and resolution to the known email-send / webhook identifiers). -/
theorem C1_counterexample :
    tblGet MAKE_TO_N8N_MAPPING "email:send" = none ∧
    tblGet MAKE_TO_N8N_MAPPING "webhook:webhook" = none ∧
    (convert_make_to_n8n scenario1).warnings =
      ["No direct n8n equivalent for \x27webhook:webhook\x27, using HTTP Request",
       "No direct n8n equivalent for \x27email:send\x27, using HTTP Request"] :=
  ⟨rfl, rfl, rfl⟩

/-- C1, amended: converting the Scenario 1 blueprint produces exactly two
nodes joined by a single linear connection, but both `webhook:webhook` and
`email:send` are absent from the mapping table, so each resolves to the
generic `n8n-nodes-base.httpRequest` fallback and one fallback warning is
emitted per node. -/
theorem C1_amended :
    ∃ o, convert_make_to_n8n_body scenario1 = .ok o ∧
      dictGet o.doc "nodes" = some (.arr
        [.obj [("parameters", .obj []),
               ("name", .str "Step 1"),
               ("type", .str "n8n-nodes-base.httpRequest"),
               ("typeVersion", .num 1),
               ("position", .arr [.num 240, .num 300])],
         .obj [("parameters",
                .obj [("to", .str "\x7b\x7b1.data.email\x7d\x7d"),
                      ("subject", .str "...")]),
               ("name", .str "Step 2"),
               ("type", .str "n8n-nodes-base.httpRequest"),
               ("typeVersion", .num 1),
               ("position", .arr [.num 460, .num 300])]]) ∧
      dictGet o.doc "connections" = some (.obj
        [("Step 1", .obj [("main", .arr [.arr [.str "Step 2"]])])]) ∧
      o.warnings =
        ["No direct n8n equivalent for \x27webhook:webhook\x27, using HTTP Request",
         "No direct n8n equivalent for \x27email:send\x27, using HTTP Request"] ∧
      o.fallbacks =
        ["Module \x27webhook:webhook\x27 converted to HTTP Request",
         "Module \x27email:send\x27 converted to HTTP Request"] :=
  ⟨_, rfl, rfl, rfl, rfl, rfl⟩

/-! ## C2 -/

/-- C2: module resolution never raises (it is a total function); on a
table hit it returns the mapped identifier with no fallback flag and no
warning or fallback entries, and on a miss it returns the direction
specific generic HTTP pass-through identifier with the fallback flag and
exactly one fallback entry and one warning. -/
theorem C2_thm (a : String) :
    (∀ t, tblGet MAKE_TO_N8N_MAPPING a = some t →
       resolveMakeModule a = (t, false, [], [])) ∧
    (tblGet MAKE_TO_N8N_MAPPING a = none →
       resolveMakeModule a =
         ("n8n-nodes-base.httpRequest", true,
          ["Module \x27" ++ a ++ "\x27 converted to HTTP Request"],
          ["No direct n8n equivalent for \x27" ++ a ++
           "\x27, using HTTP Request"])) ∧
    (∀ t, tblGet N8N_TO_MAKE_MAPPING a = some t →
       resolveN8nNode a = (t, false, [], [])) ∧
    (tblGet N8N_TO_MAKE_MAPPING a = none →
       resolveN8nNode a =
         ("http:ActionSendData", true,
          ["Node \x27" ++ a ++ "\x27 converted to HTTP module"],
          ["No direct Make.com equivalent for \x27" ++ a ++
           "\x27, using HTTP module"])) := by
  refine ⟨?_, ?_, ?_, ?_⟩
  · intro t ht
    have hne : ¬ t = "" := by
      have hval : ∀ p ∈ MAKE_TO_N8N_MAPPING, ¬ p.2 = "" := by decide
      exact hval _ (tblGet_mem ht)
    simp [resolveMakeModule, ht, strFalsyOpt, hne]
  · intro ht
    simp [resolveMakeModule, ht, strFalsyOpt]
  · intro t ht
    have hne : ¬ t = "" := by
      have hval : ∀ p ∈ N8N_TO_MAKE_MAPPING, ¬ p.2 = "" := by decide
      exact hval _ (tblGet_mem ht)
    simp [resolveN8nNode, ht, strFalsyOpt, hne]
  · intro ht
    simp [resolveN8nNode, ht, strFalsyOpt]

/-- C2, witness: a table hit and a table miss at concrete identifiers. -/
theorem C2_witness :
    resolveMakeModule "google-sheets:AddRow" =
      ("n8n-nodes-base.googleSheets", false, [], []) ∧
    resolveN8nNode "zzz" =
      ("http:ActionSendData", true,
       ["Node \x27zzz\x27 converted to HTTP module"],
       ["No direct Make.com equivalent for \x27zzz\x27, using HTTP module"]) :=
  ⟨(C2_thm "google-sheets:AddRow").1 _ rfl, (C2_thm "zzz").2.2.2 rfl⟩

/-! ## C4 -/

/-- C4: whenever the conversion body raises, the conversion operation (in
either direction) returns a `ConversionResult` with `success = false`, an
empty converted document and a single warning carrying the exception text,
instead of propagating the exception. -/
theorem C4_thm (make_json n8n_json : Dict) (em en : String) :
    (convert_make_to_n8n_body make_json = .error em →
       convert_make_to_n8n make_json =
         ⟨false, "", ["Conversion failed: " ++ em], [], []⟩) ∧
    (convert_n8n_to_make_body n8n_json = .error en →
       convert_n8n_to_make n8n_json =
         ⟨false, "", ["Conversion failed: " ++ en], [], []⟩) := by
  constructor
  · intro h; simp [convert_make_to_n8n, h]
  · intro h; simp [convert_n8n_to_make, h]

/-- C4, witness: a Make blueprint whose `flow` is a number and an n8n
workflow whose `nodes` is a number both raise inside the body, and both
conversions return the failed result. -/
theorem C4_witness :
    convert_make_to_n8n [("flow", .num 3)] =
      ⟨false, "", ["Conversion failed: TypeError: object is not iterable"],
       [], []⟩ ∧
    convert_n8n_to_make [("nodes", .num 3)] =
      ⟨false, "", ["Conversion failed: TypeError: object is not iterable"],
       [], []⟩ :=
  ⟨(C4_thm [("flow", .num 3)] [("nodes", .num 3)]
      "TypeError: object is not iterable"
      "TypeError: object is not iterable").1 rfl,
   (C4_thm [("flow", .num 3)] [("nodes", .num 3)]
      "TypeError: object is not iterable"
      "TypeError: object is not iterable").2 rfl⟩

/-! ## C6 -/

/-- C6: the reverse table is the forward table inverted; for every target
identifier with two or more forward keys, the reverse entry is the forward
key inserted last during the inversion. -/
theorem C6_thm :
    ∀ p ∈ MAKE_TO_N8N_MAPPING,
      2 ≤ (MAKE_TO_N8N_MAPPING.filter (fun q => q.2 == p.2)).length →
      tblGet N8N_TO_MAKE_MAPPING p.2 =
        ((MAKE_TO_N8N_MAPPING.filter (fun q => q.2 == p.2)).getLast?).map
          Prod.fst := by decide

/-- C6, witness: three forward keys map to the Google Sheets node; the
reverse lookup returns the last of them. -/
theorem C6_witness :
    tblGet N8N_TO_MAKE_MAPPING "n8n-nodes-base.googleSheets" =
      some "google-sheets:UpdateRow" :=
  (C6_thm ("google-sheets:SearchRows", "n8n-nodes-base.googleSheets")
    (by decide) (by decide)).trans (by decide)

/-! ## C7 -/

/-- C7: for an authorized (non-free-tier) caller, the Convert operation
rejects its input with an HTTP 400 error before the conversion engine is
invoked exactly when the source and target platforms are equal or the
blueprint string is not valid JSON; otherwise the engine is invoked with
the request data.  (The free tier is rejected earlier with HTTP 403 by
the out-of-scope authorization gate.) -/
theorem C7_thm (tier : SubscriptionTier) (request : BlueprintConversionRequest)
    (h : tier ≠ .free) :
    ((request.source_platform ≠ request.target_platform ∧
        json_valid request.blueprint_json = true) →
      convert_blueprint tier request =
        .engineInvoked request.blueprint_json request.source_platform
          request.target_platform request.ai_model) ∧
    ((request.source_platform = request.target_platform ∨
        json_valid request.blueprint_json = false) →
      ∃ d, convert_blueprint tier request = .rejected 400 d) := by
  have htier : (tier == SubscriptionTier.free) = false := by
    simpa using h
  constructor
  · rintro ⟨hne, hjson⟩
    have hpl : (request.source_platform == request.target_platform) = false := by
      simpa using hne
    simp [convert_blueprint, htier, hpl, hjson]
  · rintro (heq | hjson)
    · refine ⟨"Source and target platforms must be different", ?_⟩
      have hpl : (request.source_platform == request.target_platform) = true := by
        simpa using heq
      simp [convert_blueprint, htier, hpl]
    · by_cases hpl : (request.source_platform == request.target_platform) = true
      · exact ⟨"Source and target platforms must be different",
          by simp [convert_blueprint, htier, hpl]⟩
      · refine ⟨"Invalid JSON format in blueprint", ?_⟩
        simp at hpl
        simp [convert_blueprint, htier, hpl, hjson]

/-- C7, witness: equal platforms and a non-JSON blueprint are rejected
with 400 for a Pro caller; a well-formed request reaches the engine. -/
theorem C7_witness :
    (∃ d, convert_blueprint .pro ⟨"[]", .make, .make, .gpt4⟩ =
            .rejected 400 d) ∧
    (∃ d, convert_blueprint .pro ⟨"not json", .make, .n8n, .gpt4⟩ =
            .rejected 400 d) ∧
    convert_blueprint .pro ⟨"[]", .make, .n8n, .gpt4⟩ =
      .engineInvoked "[]" .make .n8n .gpt4 :=
  ⟨(C7_thm _ _ (by decide)).2 (Or.inl rfl),
   (C7_thm _ _ (by decide)).2 (Or.inr (by decide)),
   (C7_thm _ _ (by decide)).1 ⟨by decide, by decide⟩⟩

/-! ## C10 -/

theorem analyzeMakeModule_flags {m : JVal} {es : List WorkflowError}
    (h : analyzeMakeModule m = .ok es) :
    ∀ e ∈ es, e.error_type = .parameter_missing ∧ e.severity = "critical" := by
  cases m <;>
    simp only [analyzeMakeModule] at h <;>
    try (obtain ⟨mObj, hm, h⟩ := ebind_ok.mp h; simp [asObj] at hm)
  case obj fs =>
    obtain ⟨name, hn, h⟩ := ebind_ok.mp h
    obtain ⟨params, hp, h⟩ := ebind_ok.mp h
    split at h
    · split at h <;> injection h with h <;> subst h <;> intro e he <;>
        simp at he <;> subst he <;> exact ⟨rfl, rfl⟩
    · split at h
      · split at h <;> injection h with h <;> subst h <;> intro e he <;>
          simp at he <;> subst he <;> exact ⟨rfl, rfl⟩
      · split at h
        · obtain ⟨mapper, hmap, h⟩ := ebind_ok.mp h
          split at h <;> injection h with h <;> subst h <;> intro e he <;>
            simp at he <;> subst he <;> exact ⟨rfl, rfl⟩
        · injection h with h; subst h; intro e he; simp at he

theorem analyzeN8nNode_flags {n : JVal} {es : List WorkflowError}
    (h : analyzeN8nNode n = .ok es) :
    ∀ e ∈ es, e.error_type = .parameter_missing ∧ e.severity = "critical" := by
  cases n <;>
    simp only [analyzeN8nNode] at h <;>
    try (obtain ⟨nObj, hm, h⟩ := ebind_ok.mp h; simp [asObj] at hm)
  case obj fs =>
    obtain ⟨ty, hn, h⟩ := ebind_ok.mp h
    obtain ⟨params, hp, h⟩ := ebind_ok.mp h
    split at h
    · split at h <;> injection h with h <;> subst h <;> intro e he <;>
        simp at he <;> subst he <;> exact ⟨rfl, rfl⟩
    · split at h
      · split at h <;> injection h with h <;> subst h <;> intro e he <;>
          simp at he <;> subst he <;> exact ⟨rfl, rfl⟩
      · split at h
        · split at h <;> injection h with h <;> subst h <;> intro e he <;>
            simp at he <;> subst he <;> exact ⟨rfl, rfl⟩
        · injection h with h; subst h; intro e he; simp at he

theorem analyzeMakeFlow_flags : ∀ {flow : List JVal} {es : List WorkflowError},
    analyzeMakeFlow flow = .ok es →
    ∀ e ∈ es, e.error_type = .parameter_missing ∧ e.severity = "critical" := by
  intro flow
  induction flow with
  | nil =>
    intro es h
    simp only [analyzeMakeFlow] at h
    injection h with h; subst h
    intro e he; simp at he
  | cons m rest ih =>
    intro es h
    simp only [analyzeMakeFlow] at h
    obtain ⟨es1, h1, h⟩ := ebind_ok.mp h
    obtain ⟨es2, h2, h⟩ := ebind_ok.mp h
    injection h with h; subst h
    intro e he
    rcases List.mem_append.mp he with he | he
    · exact analyzeMakeModule_flags h1 e he
    · exact ih h2 e he

theorem analyzeN8nNodes_flags : ∀ {nodes : List JVal} {es : List WorkflowError},
    analyzeN8nNodes nodes = .ok es →
    ∀ e ∈ es, e.error_type = .parameter_missing ∧ e.severity = "critical" := by
  intro nodes
  induction nodes with
  | nil =>
    intro es h
    simp only [analyzeN8nNodes] at h
    injection h with h; subst h
    intro e he; simp at he
  | cons n rest ih =>
    intro es h
    simp only [analyzeN8nNodes] at h
    obtain ⟨es1, h1, h⟩ := ebind_ok.mp h
    obtain ⟨es2, h2, h⟩ := ebind_ok.mp h
    injection h with h; subst h
    intro e he
    rcases List.mem_append.mp he with he | he
    · exact analyzeN8nNode_flags h1 e he
    · exact ih h2 e he

/-- C10: every Finding returned by the validator, for either platform, has
error classification `parameter_missing` and severity `"critical"`; no
other classification or severity is ever emitted. -/
theorem C10_thm (wf : Dict) (p : WorkflowPlatform) (errs : List WorkflowError)
    (h : analyze_workflow wf p = .ok errs) :
    ∀ e ∈ errs, e.error_type = .parameter_missing ∧ e.severity = "critical" := by
  cases p
  · simp only [analyze_workflow, analyze_make_workflow] at h
    obtain ⟨flow, hf, h⟩ := ebind_ok.mp h
    exact analyzeMakeFlow_flags h
  · simp only [analyze_workflow, analyze_n8n_workflow] at h
    obtain ⟨nodes, hn, h⟩ := ebind_ok.mp h
    exact analyzeN8nNodes_flags h

/-- C10, witness: an OpenAI module with no model parameter yields exactly
one finding, and it carries the `parameter_missing` / `"critical"` flags. -/
theorem C10_witness :
    (⟨.parameter_missing, "unknown", "openai:CreateChatCompletion",
      "Missing required model parameter",
      "Add model parameter: \x27gpt-4\x27 or \x27gpt-3.5-turbo\x27",
      "critical"⟩ : WorkflowError).error_type = .parameter_missing ∧
    (⟨.parameter_missing, "unknown", "openai:CreateChatCompletion",
      "Missing required model parameter",
      "Add model parameter: \x27gpt-4\x27 or \x27gpt-3.5-turbo\x27",
      "critical"⟩ : WorkflowError).severity = "critical" :=
  C10_thm
    [("flow", .arr [.obj [("module", .str "openai:CreateChatCompletion"),
                          ("parameters", .obj [])]])]
    .make _ rfl _ (List.mem_singleton.mpr rfl)

/-! ## Dict lemmas -/

theorem dictGet_dictSet_self : ∀ (d : Dict) (k : String) (v : JVal),
    dictGet (dictSet d k v) k = some v := by
  intro d k v
  induction d with
  | nil => simp [dictSet, dictGet]
  | cons p rest ih =>
    obtain ⟨k', v'⟩ := p
    by_cases hk : (k' == k) = true
    · simp [dictSet, dictGet, hk]
    · simp only [dictSet, dictGet, hk]
      simp only [Bool.false_eq_true, if_false, dictGet, hk]
      exact ih

theorem dictGet_dictSet_ne : ∀ (d : Dict) (k k' : String) (v : JVal),
    ¬ k' = k → dictGet (dictSet d k v) k' = dictGet d k' := by
  intro d k k' v hne
  induction d with
  | nil =>
    have : (k == k') = false := by
      simp; intro h; exact hne h.symm
    simp [dictSet, dictGet, this]
  | cons p rest ih =>
    obtain ⟨k0, v0⟩ := p
    by_cases hk : (k0 == k) = true
    · have hk0 : k0 = k := by simpa using hk
      subst hk0
      have : (k0 == k') = false := by
        simp; intro h; exact hne h.symm
      simp [dictSet, dictGet, this]
    · simp only [dictSet, hk, Bool.false_eq_true, if_false]
      by_cases hk' : (k0 == k') = true
      · simp [dictGet, hk']
      · simp only [dictGet, hk', Bool.false_eq_true, if_false]
        exact ih

/-! ## C9 -/

/-- An error references a Make module: `str(module.get("id"))` equals the
error's module id. -/
def refMakeModule (e : WorkflowError) (m : JVal) : Bool :=
  match m with
  | .obj fs => pyStrOpt (dictGet fs "id") == e.module_id
  | _ => false

/-- An error references an n8n node (see `refN8nNode`). -/
def refN8nNodeJ (e : WorkflowError) (n : JVal) : Bool :=
  match n with
  | .obj fs => refN8nNode e fs
  | _ => false

theorem patchMakeModule_unref {e : WorkflowError} {m m2 : Dict}
    (h : patchMakeModule e m = .ok m2)
    (href : (pyStrOpt (dictGet m "id") == e.module_id) = false) : m2 = m := by
  simp only [patchMakeModule, href, Bool.false_eq_true, if_false] at h
  injection h with h
  exact h.symm

theorem patchN8nNode_unref {e : WorkflowError} {n n2 : Dict}
    (h : patchN8nNode e n = .ok n2)
    (href : refN8nNode e n = false) : n2 = n := by
  simp only [patchN8nNode, href, Bool.false_eq_true, if_false] at h
  injection h with h
  exact h.symm

theorem fixOneMakeError_forall2 {e : WorkflowError} : ∀ {flow flow2 : List JVal},
    fixOneMakeError e flow = .ok flow2 →
    List.Forall₂ (fun m m2 => refMakeModule e m = false → m2 = m) flow flow2 := by
  intro flow
  induction flow with
  | nil =>
    intro flow2 h
    simp only [fixOneMakeError] at h
    injection h with h; subst h
    exact List.Forall₂.nil
  | cons m rest ih =>
    intro flow2 h
    simp only [fixOneMakeError] at h
    obtain ⟨mObj, hm, h⟩ := ebind_ok.mp h
    obtain ⟨m2, hp, h⟩ := ebind_ok.mp h
    obtain ⟨rest2, hr, h⟩ := ebind_ok.mp h
    injection h with h; subst h
    refine List.Forall₂.cons ?_ (ih hr)
    intro hrefF
    cases m <;> simp [asObj] at hm
    case obj fs =>
      subst hm
      have hm2 := patchMakeModule_unref hp (by simpa [refMakeModule] using hrefF)
      rw [hm2]

theorem fixOneN8nError_forall2 {e : WorkflowError} : ∀ {nodes nodes2 : List JVal},
    fixOneN8nError e nodes = .ok nodes2 →
    List.Forall₂ (fun n n2 => refN8nNodeJ e n = false → n2 = n) nodes nodes2 := by
  intro nodes
  induction nodes with
  | nil =>
    intro nodes2 h
    simp only [fixOneN8nError] at h
    injection h with h; subst h
    exact List.Forall₂.nil
  | cons n rest ih =>
    intro nodes2 h
    simp only [fixOneN8nError] at h
    obtain ⟨nObj, hm, h⟩ := ebind_ok.mp h
    obtain ⟨n2, hp, h⟩ := ebind_ok.mp h
    obtain ⟨rest2, hr, h⟩ := ebind_ok.mp h
    injection h with h; subst h
    refine List.Forall₂.cons ?_ (ih hr)
    intro hrefF
    cases n <;> simp [asObj] at hm
    case obj fs =>
      subst hm
      have hn2 := patchN8nNode_unref hp (by simpa [refN8nNodeJ] using hrefF)
      rw [hn2]

theorem forall2_comp {α : Type} {r1 r2 r3 : α → α → Prop}
    (hcomp : ∀ a b c, r1 a b → r2 b c → r3 a c) :
    ∀ {l1 l2 l3 : List α}, List.Forall₂ r1 l1 l2 → List.Forall₂ r2 l2 l3 →
      List.Forall₂ r3 l1 l3 := by
  intro l1 l2 l3 h12
  induction h12 generalizing l3 with
  | nil => intro h23; cases h23; exact .nil
  | cons hab h12' ih =>
    intro h23
    cases h23 with
    | cons hbc h23' => exact .cons (hcomp _ _ _ hab hbc) (ih h23')

theorem fixMakeFlow_forall2 : ∀ {errors : List WorkflowError}
    {flow flow2 : List JVal}, fixMakeFlow errors flow = .ok flow2 →
    List.Forall₂
      (fun m m2 => (∀ e ∈ errors, refMakeModule e m = false) → m2 = m)
      flow flow2 := by
  intro errors
  induction errors with
  | nil =>
    intro flow flow2 h
    simp only [fixMakeFlow] at h
    injection h with h; subst h
    exact List.forall₂_same.mpr (fun a _ _ => rfl)
  | cons e es ih =>
    intro flow flow2 h
    simp only [fixMakeFlow] at h
    obtain ⟨f1, h1, h⟩ := ebind_ok.mp h
    refine forall2_comp ?_ (fixOneMakeError_forall2 h1) (ih h)
    intro a b c hab hbc hall
    have hba : b = a := hab (hall e (List.mem_cons_self _ _))
    subst hba
    exact hbc (fun e' he' => hall e' (List.mem_cons_of_mem _ he'))

theorem fixN8nNodes_forall2 : ∀ {errors : List WorkflowError}
    {nodes nodes2 : List JVal}, fixN8nNodes errors nodes = .ok nodes2 →
    List.Forall₂
      (fun n n2 => (∀ e ∈ errors, refN8nNodeJ e n = false) → n2 = n)
      nodes nodes2 := by
  intro errors
  induction errors with
  | nil =>
    intro nodes nodes2 h
    simp only [fixN8nNodes] at h
    injection h with h; subst h
    exact List.forall₂_same.mpr (fun a _ _ => rfl)
  | cons e es ih =>
    intro nodes nodes2 h
    simp only [fixN8nNodes] at h
    obtain ⟨f1, h1, h⟩ := ebind_ok.mp h
    refine forall2_comp ?_ (fixOneN8nError_forall2 h1) (ih h)
    intro a b c hab hbc hall
    have hba : b = a := hab (hall e (List.mem_cons_self _ _))
    subst hba
    exact hbc (fun e' he' => hall e' (List.mem_cons_of_mem _ he'))

/-- C9: Auto-Fix changes only nodes referenced by some input finding (by
`str(id)` on Make, by node name on n8n); every node not referenced by any
finding is identical in the patched output to its value in the input. -/
theorem C9_thm (wf : Dict) (errors : List WorkflowError) :
    (∀ fixed flow, fix_make_workflow wf errors = .ok fixed →
       dictGet wf "flow" = some (.arr flow) →
       ∃ flow2, dictGet fixed "flow" = some (.arr flow2) ∧
         List.Forall₂
           (fun m m2 => (∀ e ∈ errors, refMakeModule e m = false) → m2 = m)
           flow flow2) ∧
    (∀ fixed nodes, fix_n8n_workflow wf errors = .ok fixed →
       dictGet wf "nodes" = some (.arr nodes) →
       ∃ nodes2, dictGet fixed "nodes" = some (.arr nodes2) ∧
         List.Forall₂
           (fun n n2 => (∀ e ∈ errors, refN8nNodeJ e n = false) → n2 = n)
           nodes nodes2) := by
  constructor
  · intro fixed flow hfix hflow
    cases errors with
    | nil =>
      simp only [fix_make_workflow] at hfix
      injection hfix with hfix; subst hfix
      exact ⟨flow, hflow, List.forall₂_same.mpr (fun a _ _ => rfl)⟩
    | cons e es =>
      simp only [fix_make_workflow, hflow] at hfix
      obtain ⟨f2, h2, hset⟩ := emap_ok.mp hfix
      subst hset
      exact ⟨f2, dictGet_dictSet_self _ _ _, fixMakeFlow_forall2 h2⟩
  · intro fixed nodes hfix hnodes
    cases errors with
    | nil =>
      simp only [fix_n8n_workflow] at hfix
      injection hfix with hfix; subst hfix
      exact ⟨nodes, hnodes, List.forall₂_same.mpr (fun a _ _ => rfl)⟩
    | cons e es =>
      simp only [fix_n8n_workflow, hnodes] at hfix
      obtain ⟨f2, h2, hset⟩ := emap_ok.mp hfix
      subst hset
      exact ⟨f2, dictGet_dictSet_self _ _ _, fixN8nNodes_forall2 h2⟩

/-- Two-module flow used by the C9 witness. -/
def flowC9 : List JVal :=
  [.obj [("id", .num 1), ("module", .str "x")],
   .obj [("id", .num 2), ("module", .str "y")]]

/-- Workflow used by the C9 witness. -/
def wfC9 : Dict := [("flow", .arr flowC9)]

/-- Single finding used by the C9 witness, referencing module id 1. -/
def errsC9 : List WorkflowError :=
  [⟨.parameter_missing, "1", "x", "Missing required URL parameter",
    "Add URL in mapper or parameters", "critical"⟩]

/-- C9, witness: fixing a two-module flow with one finding touching module
id 1 leaves the unreferenced module untouched. -/
theorem C9_witness :
    ∃ fixed, fix_make_workflow wfC9 errsC9 = .ok fixed ∧
      ∃ flow2, dictGet fixed "flow" = some (.arr flow2) ∧
        List.Forall₂
          (fun m m2 => (∀ e ∈ errsC9, refMakeModule e m = false) → m2 = m)
          flowC9 flow2 := by
  obtain ⟨fixed, hfix⟩ : ∃ x, fix_make_workflow wfC9 errsC9 = .ok x := ⟨_, rfl⟩
  obtain ⟨flow2, h1, h2⟩ := (C9_thm wfC9 errsC9).1 fixed flowC9 hfix rfl
  exact ⟨fixed, hfix, flow2, h1, h2⟩

/-! ## C5 -/

theorem processFlow_len : ∀ {flow : List JVal} {i : Nat} {poss : STbl}
    {fo : FlowOut}, processFlow flow i poss = .ok fo →
    fo.nodes.length = flow.length := by
  intro flow
  induction flow with
  | nil =>
    intro i poss fo h
    simp only [processFlow] at h
    injection h with h; subst h
    rfl
  | cons m rest ih =>
    intro i poss fo h
    simp only [processFlow] at h
    obtain ⟨r, hr, h⟩ := ebind_ok.mp h
    obtain ⟨o, ho, h⟩ := ebind_ok.mp h
    injection h with h; subst h
    simpa using ih ho

theorem convertN8nNode_ok_id {i : Nat} {n : JVal}
    {r : Dict × List String × List String} (h : convertN8nNode i n = .ok r) :
    dictGet r.1 "id" = some (.num (Int.ofNat i + 1)) := by
  cases n <;> simp only [convertN8nNode] at h <;>
    try (obtain ⟨nObj, hm, h⟩ := ebind_ok.mp h; simp [asObj] at hm)
  case obj fs =>
    obtain ⟨ty, hty, h⟩ := ebind_ok.mp h
    obtain ⟨params, hp, h⟩ := ebind_ok.mp h
    obtain ⟨mparams, hmp, h⟩ := ebind_ok.mp h
    obtain ⟨u, hu, h⟩ := ebind_ok.mp h
    injection h with h
    rw [← h]
    rfl

theorem processNodes_facts : ∀ {nodes : List JVal} {i : Nat}
    {po : List JVal × List String × List String},
    processNodes nodes i = .ok po →
    po.1.length = nodes.length ∧
    ∀ j (hj : j < po.1.length), ∃ fs, po.1.get ⟨j, hj⟩ = .obj fs ∧
      dictGet fs "id" = some (.num (Int.ofNat (i + j) + 1)) := by
  intro nodes
  induction nodes with
  | nil =>
    intro i po h
    simp only [processNodes] at h
    injection h with h; subst h
    exact ⟨rfl, fun j hj => absurd hj (by simp)⟩
  | cons n rest ih =>
    intro i po h
    simp only [processNodes] at h
    obtain ⟨r, hr, h⟩ := ebind_ok.mp h
    obtain ⟨o, ho, h⟩ := ebind_ok.mp h
    injection h with h; subst h
    obtain ⟨hlen, hids⟩ := ih ho
    refine ⟨by simpa using hlen, ?_⟩
    intro j hj
    cases j with
    | zero =>
      refine ⟨r.1, rfl, ?_⟩
      simpa using convertN8nNode_ok_id hr
    | succ j' =>
      have hj' : j' < o.1.length := by simpa using hj
      obtain ⟨fs, hfs, hid⟩ := hids j' hj'
      refine ⟨fs, hfs, ?_⟩
      rw [hid]
      have : i + 1 + j' = i + (j' + 1) := by omega
      rw [this]

/-- C5: a round trip Make → n8n → Make preserves the node count and the
positional order of the nodes: the returned flow has one module per
original module, numbered sequentially 1..n in input order. -/
theorem C5_thm (make_json : Dict) (flow : List JVal) (o1 o2 : ConvOut)
    (hflow : (dictGet make_json "flow").getD (.arr []) = .arr flow)
    (h1 : convert_make_to_n8n_body make_json = .ok o1)
    (h2 : convert_n8n_to_make_body o1.doc = .ok o2) :
    ∃ flow2, dictGet o2.doc "flow" = some (.arr flow2) ∧
      flow2.length = flow.length ∧
      ∀ j (hj : j < flow2.length), ∃ fs, flow2.get ⟨j, hj⟩ = .obj fs ∧
        dictGet fs "id" = some (.num (Int.ofNat j + 1)) := by
  simp only [convert_make_to_n8n_body] at h1
  obtain ⟨flow', hfl, h1⟩ := ebind_ok.mp h1
  rw [hflow] at hfl
  obtain rfl : flow = flow' := by
    have := hfl
    simp [asList] at this
    exact this
  obtain ⟨fo, hfo, h1⟩ := ebind_ok.mp h1
  obtain ⟨conns, hc, h1⟩ := ebind_ok.mp h1
  obtain ⟨nm, hnm, h1⟩ := ebind_ok.mp h1
  injection h1 with h1
  subst h1
  simp only [convert_n8n_to_make_body] at h2
  obtain ⟨nodes', hn, h2⟩ := ebind_ok.mp h2
  obtain rfl : fo.nodes = nodes' := by
    have hred : asList ((dictGet
        [("name", (dictGet make_json "name").getD (.str "Converted Workflow")),
         ("nodes", .arr fo.nodes),
         ("connections", .obj conns),
         ("active", .bool false),
         ("settings", .obj [("executionOrder", .str "v1")]),
         ("versionId", .str "1"),
         ("meta", .obj [("templateCredsSetupCompleted", .bool false)]),
         ("id", .str (pyReplace (pyLower nm) " " "-"))] "nodes").getD (.arr []))
        = Except.ok fo.nodes := rfl
    rw [hred] at hn
    injection hn
  obtain ⟨po, hpo, h2⟩ := ebind_ok.mp h2
  injection h2 with h2
  subst h2
  obtain ⟨hlen, hids⟩ := processNodes_facts hpo
  refine ⟨po.1, rfl, ?_, ?_⟩
  · rw [hlen]
    exact processFlow_len hfo
  · intro j hj
    obtain ⟨fs, hfs, hid⟩ := hids j hj
    exact ⟨fs, hfs, by simpa using hid⟩

/-- C5, witness: the Scenario 1 blueprint survives the round trip with two
modules, numbered 1 and 2. -/
theorem C5_witness :
    ∃ o1 o2, convert_make_to_n8n_body scenario1 = .ok o1 ∧
      convert_n8n_to_make_body o1.doc = .ok o2 ∧
      ∃ flow2, dictGet o2.doc "flow" = some (.arr flow2) ∧
        flow2.length = 2 ∧
        ∀ j (hj : j < flow2.length), ∃ fs, flow2.get ⟨j, hj⟩ = .obj fs ∧
          dictGet fs "id" = some (.num (Int.ofNat j + 1)) := by
  obtain ⟨flow2, hf, hlen, hids⟩ := C5_thm scenario1 _ _ _ rfl rfl rfl
  exact ⟨_, _, rfl, rfl, flow2, hf, hlen.trans rfl, hids⟩

/-! ## C3 -/

/-- `str(module.get("id", i + 1))`: the `node_positions` key of the module
at index `i`. -/
def effKey (i : Nat) (m : JVal) : String :=
  match m with
  | .obj fs => pyStr ((dictGet fs "id").getD (.num (Int.ofNat i + 1)))
  | _ => pyStr .null

/-- The position keys of a flow starting at index `i`. -/
def effKeys : List JVal → Nat → List String
  | [], _ => []
  | m :: rest, i => effKey i m :: effKeys rest (i + 1)

/-- The synthesized `"Step {id}"` node names of a flow. -/
def stepNames (flow : List JVal) (i : Nat) : List String :=
  (effKeys flow i).map (fun k => "Step " ++ k)

/-- The pure linear chain over a list of node names: name `i` connected to
name `i+1` for every non-terminal `i`, and nothing else. -/
def chainConns : List String → Dict
  | [] => []
  | [_] => []
  | a :: b :: rest =>
      (a, .obj [("main", .arr [.arr [.str b]])]) :: chainConns (b :: rest)

/-- The `node_positions` table after processing a flow. -/
def possAfter : List JVal → Nat → STbl → STbl
  | [], _, p => p
  | m :: rest, i, p =>
      possAfter rest (i + 1) (tblSet p (effKey i m) ("Step " ++ effKey i m))

theorem tblGet_tblSet_self : ∀ (t : STbl) (k v : String),
    tblGet (tblSet t k v) k = some v := by
  intro t k v
  induction t with
  | nil => simp [tblSet, tblGet]
  | cons p rest ih =>
    obtain ⟨k', v'⟩ := p
    by_cases hk : (k' == k) = true
    · simp [tblSet, tblGet, hk]
    · simp only [tblSet, hk, Bool.false_eq_true, if_false, tblGet]
      exact ih

theorem tblGet_tblSet_ne : ∀ (t : STbl) (k k' v : String),
    ¬ k' = k → tblGet (tblSet t k v) k' = tblGet t k' := by
  intro t k k' v hne
  induction t with
  | nil =>
    have : (k == k') = false := by
      simp; intro h; exact hne h.symm
    simp [tblSet, tblGet, this]
  | cons p rest ih =>
    obtain ⟨k0, v0⟩ := p
    by_cases hk : (k0 == k) = true
    · have hk0 : k0 = k := by simpa using hk
      subst hk0
      have : (k0 == k') = false := by
        simp; intro h; exact hne h.symm
      simp [tblSet, tblGet, this]
    · simp only [tblSet, hk, Bool.false_eq_true, if_false]
      by_cases hk' : (k0 == k') = true
      · simp [tblGet, hk']
      · simp only [tblGet, hk', Bool.false_eq_true, if_false]
        exact ih

theorem possAfter_untouched : ∀ {flow : List JVal} {i : Nat} {p : STbl}
    {k : String}, k ∉ effKeys flow i →
    tblGet (possAfter flow i p) k = tblGet p k := by
  intro flow
  induction flow with
  | nil => intro i p k _; rfl
  | cons m rest ih =>
    intro i p k hk
    simp only [effKeys, List.mem_cons, not_or] at hk
    obtain ⟨hk1, hk2⟩ := hk
    simp only [possAfter]
    rw [ih hk2, tblGet_tblSet_ne _ _ _ _ hk1]

theorem possAfter_get : ∀ {flow : List JVal} {i : Nat} {p : STbl}
    {k : String}, k ∈ effKeys flow i →
    tblGet (possAfter flow i p) k = some ("Step " ++ k) := by
  intro flow
  induction flow with
  | nil => intro i p k hk; simp [effKeys] at hk
  | cons m rest ih =>
    intro i p k hk
    simp only [possAfter]
    by_cases hr : k ∈ effKeys rest (i + 1)
    · exact ih hr
    · have hk1 : k = effKey i m := by
        rcases (by simpa [effKeys] using hk : k = effKey i m ∨
          k ∈ effKeys rest (i + 1)) with h | h
        · exact h
        · exact absurd h hr
      subst hk1
      rw [possAfter_untouched hr, tblGet_tblSet_self]

theorem step_beq_empty_false (s : String) : (("Step " ++ s) == "") = false := by
  obtain ⟨d⟩ := s
  rw [beq_eq_false_iff_ne]
  intro h
  have hd : ('S' :: 't' :: 'e' :: 'p' :: ' ' :: d) = ([] : List Char) :=
    congrArg String.data h
  simp at hd

theorem step_append_inj : Function.Injective (fun k => "Step " ++ k) := by
  intro a b h
  obtain ⟨da⟩ := a
  obtain ⟨db⟩ := b
  have hd : ('S' :: 't' :: 'e' :: 'p' :: ' ' :: da) =
      ('S' :: 't' :: 'e' :: 'p' :: ' ' :: db) := congrArg String.data h
  simp at hd
  exact congrArg String.mk hd

theorem dictSet_fresh : ∀ {d : Dict} {k : String} (v : JVal),
    (∀ p ∈ d, p.1 ≠ k) → dictSet d k v = d ++ [(k, v)] := by
  intro d
  induction d with
  | nil => intro k v _; rfl
  | cons p rest ih =>
    intro k v hf
    obtain ⟨k0, v0⟩ := p
    have hk : (k0 == k) = false := by
      simp
      exact hf (k0, v0) (List.mem_cons_self _ _)
    simp only [dictSet, hk, Bool.false_eq_true, if_false, List.cons_append,
      List.cons.injEq, true_and]
    exact ih v (fun q hq => hf q (List.mem_cons_of_mem _ hq))

theorem convertMakeModule_ok_shape {i : Nat} {m : JVal}
    {r : Dict × String × List String × List String}
    (h : convertMakeModule i m = .ok r) :
    (∃ fs, m = .obj fs) ∧ r.2.1 = effKey i m := by
  cases m <;> simp only [convertMakeModule] at h <;>
    try (obtain ⟨mObj, hm, h⟩ := ebind_ok.mp h; simp [asObj] at hm)
  case obj fs =>
    subst hm
    refine ⟨⟨_, rfl⟩, ?_⟩
    obtain ⟨name, hn, h⟩ := ebind_ok.mp h
    obtain ⟨params, hp, h⟩ := ebind_ok.mp h
    obtain ⟨mapper, hmp, h⟩ := ebind_ok.mp h
    obtain ⟨nparams, hc, h⟩ := ebind_ok.mp h
    injection h with h
    rw [← h]
    rfl

theorem processFlow_pos : ∀ {flow : List JVal} {i : Nat} {poss : STbl}
    {fo : FlowOut}, processFlow flow i poss = .ok fo →
    fo.positions = possAfter flow i poss ∧ ∀ m ∈ flow, ∃ fs, m = .obj fs := by
  intro flow
  induction flow with
  | nil =>
    intro i poss fo h
    simp only [processFlow] at h
    injection h with h; subst h
    exact ⟨rfl, fun m hm => absurd hm (by simp)⟩
  | cons m rest ih =>
    intro i poss fo h
    simp only [processFlow] at h
    obtain ⟨r, hr, h⟩ := ebind_ok.mp h
    obtain ⟨o, ho, h⟩ := ebind_ok.mp h
    injection h with h; subst h
    obtain ⟨hobj, hkey⟩ := convertMakeModule_ok_shape hr
    obtain ⟨hpos, hrest⟩ := ih ho
    constructor
    · simp only [possAfter]
      rw [← hkey]
      exact hpos
    · intro m' hm'
      rcases List.mem_cons.mp hm' with hm' | hm'
      · exact hm' ▸ hobj
      · exact hrest m' hm'

theorem buildConns_chain : ∀ (suffix : List JVal) (i : Nat) (P : STbl)
    (C : Dict),
    (∀ m ∈ suffix, ∃ fs, m = .obj fs) →
    (∀ k ∈ effKeys suffix i, tblGet P k = some ("Step " ++ k)) →
    (stepNames suffix i).Nodup →
    (∀ n ∈ stepNames suffix i, ∀ p ∈ C, p.1 ≠ n) →
    buildConns suffix i P C = .ok (C ++ chainConns (stepNames suffix i)) := by
  intro suffix
  induction suffix with
  | nil => intro i P C _ _ _ _; simp [buildConns, chainConns, stepNames, effKeys]
  | cons m rest ih =>
    intro i P C hobj hpos hnd hfresh
    cases rest with
    | nil => simp [buildConns, chainConns, stepNames, effKeys]
    | cons m2 rest2 =>
      obtain ⟨fs, rfl⟩ := hobj m (List.mem_cons_self _ _)
      obtain ⟨fs2, rfl⟩ := hobj (m2) (by simp)
      have hcur : tblGet P (pyStr ((dictGet fs "id").getD
          (.num (Int.ofNat i + 1)))) =
          some ("Step " ++ effKey i (.obj fs)) := by
        have := hpos (effKey i (.obj fs)) (by simp [effKeys])
        simpa [effKey] using this
      have hnext : tblGet P (pyStr ((dictGet fs2 "id").getD
          (.num (Int.ofNat (i + 1) + 1)))) =
          some ("Step " ++ effKey (i + 1) (.obj fs2)) := by
        have := hpos (effKey (i + 1) (.obj fs2)) (by simp [effKeys])
        simpa [effKey] using this
      have hstep : buildConns (.obj fs :: .obj fs2 :: rest2) i P C =
          buildConns (.obj fs2 :: rest2) (i + 1) P
            (dictSet C ("Step " ++ effKey i (.obj fs))
              (.obj [("main", .arr
                [.arr [.str ("Step " ++ effKey (i + 1) (.obj fs2))]])])) := by
        simp only [buildConns, asObj, Bind.bind, Except.bind]
        rw [show ((Int.ofNat i : Int) + 2) = (Int.ofNat (i + 1) + 1) by
          simp only [Int.ofNat_eq_coe]; push_cast; ring]
        rw [hcur, hnext]
        simp [strFalsyOpt, step_beq_empty_false]
      rw [hstep]
      have hnd2 : ("Step " ++ effKey i (.obj fs)) ∉
            stepNames (.obj fs2 :: rest2) (i + 1) ∧
          (stepNames (.obj fs2 :: rest2) (i + 1)).Nodup :=
        List.nodup_cons.mp hnd
      have hset : dictSet C ("Step " ++ effKey i (.obj fs))
            (.obj [("main", .arr
              [.arr [.str ("Step " ++ effKey (i + 1) (.obj fs2))]])]) =
          C ++ [("Step " ++ effKey i (.obj fs),
            .obj [("main", .arr
              [.arr [.str ("Step " ++ effKey (i + 1) (.obj fs2))]])])] :=
        dictSet_fresh _ (fun p hp =>
          hfresh _ (List.mem_cons_self _ _) p hp)
      rw [hset]
      rw [ih (i + 1) P _
        (fun m' hm' => hobj m' (List.mem_cons_of_mem _ hm'))
        (fun k hk => hpos k (List.mem_cons_of_mem _ hk))
        hnd2.2
        (by
          intro n hn p hp
          rcases List.mem_append.mp hp with hp | hp
          · exact hfresh n (List.mem_cons_of_mem _ hn) p hp
          · have hp1 : p = ("Step " ++ effKey i (.obj fs),
                .obj [("main", .arr
                  [.arr [.str ("Step " ++ effKey (i + 1) (.obj fs2))]])]) := by
              simpa using hp
            subst hp1
            intro hcontra
            apply hnd2.1
            rw [show ("Step " ++ effKey i (JVal.obj fs)) = n from hcontra]
            exact hn)]
      rw [List.append_assoc]
      rfl

/-- C3, amended: for every blueprint whose flow entries are objects and
whose effective node id strings (`str(module.get("id", i + 1))`) are
pairwise distinct, the Make-to-n8n conversion emits exactly the pure
linear chain connecting node `i` to node `i+1` for `i = 0..n-2` and
nothing else; any conditional filter or branching field on a source node
is absent from the output (the connections map depends only on the ids). -/
theorem C3_amended (make_json : Dict) (o : ConvOut) (flow : List JVal)
    (hflow : (dictGet make_json "flow").getD (.arr []) = .arr flow)
    (hnodup : (effKeys flow 0).Nodup)
    (hok : convert_make_to_n8n_body make_json = .ok o) :
    dictGet o.doc "connections" = some (.obj (chainConns (stepNames flow 0))) := by
  simp only [convert_make_to_n8n_body] at hok
  obtain ⟨flow', hfl, hok⟩ := ebind_ok.mp hok
  rw [hflow] at hfl
  obtain rfl : flow = flow' := by simpa [asList] using hfl
  obtain ⟨fo, hfo, hok⟩ := ebind_ok.mp hok
  obtain ⟨conns, hc, hok⟩ := ebind_ok.mp hok
  obtain ⟨nm, hnm, hok⟩ := ebind_ok.mp hok
  injection hok with hok
  subst hok
  show some (JVal.obj conns) = some (JVal.obj (chainConns (stepNames flow 0)))
  obtain ⟨hpos, hobj⟩ := processFlow_pos hfo
  have hchain := buildConns_chain flow 0 fo.positions [] hobj
    (fun k hk => by rw [hpos]; exact possAfter_get hk)
    (hnodup.map step_append_inj)
    (fun n _ p hp => absurd hp (by simp))
  rw [hchain] at hc
  injection hc with hc
  rw [← hc, List.nil_append]

/-- Flow with a duplicated module id used by the C3 counterexample. -/
def cx3flow : List JVal :=
  [.obj [("id", .num 1)], .obj [("id", .num 1)], .obj [("id", .num 2)]]

/-- Blueprint with a duplicated module id. -/
def cx3 : Dict := [("flow", .arr cx3flow)]

/-- C3, counterexample: on a 3-node flow whose first two modules share id
1, the emitted connections map has a single entry (the second write to key
`"Step 1"` overwrote the first), so it is not the linear chain linking
node `i` to node `i+1` for every `i ≤ n-2` (which has two links here) —
in particular the link from node 0 to node 1 is absent. -/
theorem C3_counterexample :
    ∃ o, convert_make_to_n8n_body cx3 = .ok o ∧
      dictGet o.doc "connections" =
        some (.obj [("Step 1",
          .obj [("main", .arr [.arr [.str "Step 2"]])])]) ∧
      chainConns (stepNames cx3flow 0) =
        [("Step 1", .obj [("main", .arr [.arr [.str "Step 1"]])]),
         ("Step 1", .obj [("main", .arr [.arr [.str "Step 2"]])])] ∧
      ¬ ([("Step 1", .obj [("main", .arr [.arr [.str "Step 2"]])])] =
          chainConns (stepNames cx3flow 0)) :=
  ⟨_, rfl, rfl, rfl, by
    intro h
    exact absurd (congrArg List.length h) (by decide)⟩

/-- C3, witness: on the Scenario 1 blueprint (distinct ids 1 and 2) the
connections object is exactly the linear chain. -/
theorem C3_witness :
    ∃ o, convert_make_to_n8n_body scenario1 = .ok o ∧
      dictGet o.doc "connections" =
        some (.obj (chainConns (stepNames
          [.obj [("id", .num 1), ("module", .str "webhook:webhook"),
                 ("parameters", .obj [])],
           .obj [("id", .num 2), ("module", .str "email:send"),
                 ("parameters",
                  .obj [("to", .str "\x7b\x7b1.data.email\x7d\x7d"),
                        ("subject", .str "...")])]] 0))) :=
  ⟨_, rfl, C3_amended scenario1 _ _ rfl (by decide) rfl⟩

/-! ## C8 -/

/-- The module's data-mapping map carries the literal placeholder URL. -/
def mapperUrlSet (m : Dict) : Prop :=
  ∃ ms, dictGet m "mapper" = some (.obj ms) ∧
    dictGet ms "url" = some (.str "https://api.example.com")

theorem setIn_get_ne {m m2 : Dict} {outer inner : String} {v : JVal}
    {k : String} (h : setIn m outer inner v = .ok m2) (hk : ¬ k = outer) :
    dictGet m2 k = dictGet m k := by
  unfold setIn at h
  split at h
  · injection h with h; subst h
    exact dictGet_dictSet_ne _ _ _ _ hk
  · injection h with h; subst h
    exact dictGet_dictSet_ne _ _ _ _ hk
  · simp at h

theorem setIn_sets {m m2 : Dict} {outer inner : String} {v : JVal}
    (h : setIn m outer inner v = .ok m2) :
    ∃ ms, dictGet m2 outer = some (.obj ms) ∧ dictGet ms inner = some v := by
  unfold setIn at h
  split at h
  · injection h with h; subst h
    exact ⟨_, dictGet_dictSet_self _ _ _, by simp [dictGet]⟩
  · injection h with h; subst h
    exact ⟨_, dictGet_dictSet_self _ _ _, dictGet_dictSet_self _ _ _⟩
  · simp at h

theorem patchMake_id_mapper {e : WorkflowError} {fs fs2 : Dict}
    (h : patchMakeModule e fs = .ok fs2) :
    dictGet fs2 "id" = dictGet fs "id" ∧
    (mapperUrlSet fs → mapperUrlSet fs2) := by
  unfold patchMakeModule at h
  split at h
  · split at h
    · split at h
      · refine ⟨setIn_get_ne h (by decide), ?_⟩
        rintro ⟨ms, hm, hu⟩
        exact ⟨ms, (setIn_get_ne h (by decide)).trans hm, hu⟩
      · split at h
        · refine ⟨setIn_get_ne h (by decide), ?_⟩
          rintro ⟨ms, hm, hu⟩
          exact ⟨ms, (setIn_get_ne h (by decide)).trans hm, hu⟩
        · split at h
          · refine ⟨setIn_get_ne h (by decide), ?_⟩
            intro _
            exact setIn_sets h
          · injection h with h; subst h
            exact ⟨rfl, fun x => x⟩
    · injection h with h; subst h
      exact ⟨rfl, fun x => x⟩
  · injection h with h; subst h
    exact ⟨rfl, fun x => x⟩

theorem patch_url_sets {e : WorkflowError} {fs fs2 : Dict}
    (h : patchMakeModule e fs = .ok fs2)
    (hmatch : (pyStrOpt (dictGet fs "id") == e.module_id) = true)
    (htype : (e.error_type == ErrorType.parameter_missing) = true)
    (hs : pyIn "spreadsheet" (pyLower e.description) = false)
    (hmo : pyIn "model" (pyLower e.description) = false)
    (hu : pyIn "url" (pyLower e.description) = true) :
    mapperUrlSet fs2 := by
  simp only [patchMakeModule, hmatch, htype, hs, hmo, hu, if_true,
    Bool.false_eq_true, if_false] at h
  exact setIn_sets h

theorem fixOne_prop {e : WorkflowError} : ∀ {flow f2 : List JVal},
    fixOneMakeError e flow = .ok f2 →
    List.Forall₂ (fun m m2 => ∃ fs fs2, m = .obj fs ∧ m2 = .obj fs2 ∧
      patchMakeModule e fs = .ok fs2) flow f2 := by
  intro flow
  induction flow with
  | nil =>
    intro f2 h
    simp only [fixOneMakeError] at h
    injection h with h; subst h
    exact List.Forall₂.nil
  | cons m rest ih =>
    intro f2 h
    simp only [fixOneMakeError] at h
    obtain ⟨mObj, hm, h⟩ := ebind_ok.mp h
    obtain ⟨m2, hp, h⟩ := ebind_ok.mp h
    obtain ⟨rest2, hr, h⟩ := ebind_ok.mp h
    injection h with h; subst h
    refine List.Forall₂.cons ?_ (ih hr)
    cases m <;> simp [asObj] at hm
    case obj fs =>
      subst hm
      exact ⟨_, _, rfl, rfl, hp⟩

/-- Facts propagated across one arbitrary patch: the node stays an object,
its `id` binding is unchanged, and a set placeholder URL stays set. -/
def Rprop (m m2 : JVal) : Prop :=
  ∀ fs, m = .obj fs → ∃ fs2, m2 = .obj fs2 ∧
    dictGet fs2 "id" = dictGet fs "id" ∧
    (mapperUrlSet fs → mapperUrlSet fs2)

theorem fixOne_Rprop {e : WorkflowError} {flow f2 : List JVal}
    (h : fixOneMakeError e flow = .ok f2) : List.Forall₂ Rprop flow f2 := by
  refine (fixOne_prop h).imp ?_
  rintro a b ⟨fs, fs2, rfl, rfl, hp⟩
  intro fs' hfs'
  obtain rfl : fs = fs' := by injection hfs'
  exact ⟨fs2, rfl, patchMake_id_mapper hp⟩

theorem fixFlow_Rprop : ∀ {errs : List WorkflowError} {flow f2 : List JVal},
    fixMakeFlow errs flow = .ok f2 → List.Forall₂ Rprop flow f2 := by
  intro errs
  induction errs with
  | nil =>
    intro flow f2 h
    simp only [fixMakeFlow] at h
    injection h with h; subst h
    refine List.forall₂_same.mpr ?_
    intro a _ fs hfs
    exact ⟨fs, hfs, rfl, fun x => x⟩
  | cons e es ih =>
    intro flow f2 h
    simp only [fixMakeFlow] at h
    obtain ⟨f1, h1, h⟩ := ebind_ok.mp h
    refine forall2_comp ?_ (fixOne_Rprop h1) (ih h)
    intro a b c hab hbc fs hfs
    obtain ⟨fsB, rfl, hidB, himB⟩ := hab fs hfs
    obtain ⟨fsC, rfl, hidC, himC⟩ := hbc fsB rfl
    exact ⟨fsC, rfl, hidC.trans hidB, fun hx => himC (himB hx)⟩

theorem fixMakeFlow_append : ∀ (xs ys : List WorkflowError)
    (flow : List JVal), fixMakeFlow (xs ++ ys) flow =
      (fixMakeFlow xs flow) >>= fun f => fixMakeFlow ys f := by
  intro xs
  induction xs with
  | nil => intro ys flow; rfl
  | cons e es ih =>
    intro ys flow
    simp only [List.cons_append, fixMakeFlow]
    cases hfo : fixOneMakeError e flow with
    | error err => simp [Bind.bind, Except.bind]
    | ok f1 => simp [Bind.bind, Except.bind, ih]

theorem analyzeMakeFlow_at : ∀ {flow : List JVal} {errs : List WorkflowError},
    analyzeMakeFlow flow = .ok errs →
    ∀ j (hj : j < flow.length), ∃ es,
      analyzeMakeModule (flow.get ⟨j, hj⟩) = .ok es ∧ ∀ e ∈ es, e ∈ errs := by
  intro flow
  induction flow with
  | nil => intro errs _ j hj; exact absurd hj (by simp)
  | cons m rest ih =>
    intro errs h j hj
    simp only [analyzeMakeFlow] at h
    obtain ⟨es1, h1, h⟩ := ebind_ok.mp h
    obtain ⟨es2, h2, h⟩ := ebind_ok.mp h
    injection h with h; subst h
    cases j with
    | zero =>
      exact ⟨es1, h1, fun e he => List.mem_append_left _ he⟩
    | succ j' =>
      obtain ⟨es, hes, hsub⟩ := ih h2 j' (by simpa using hj)
      exact ⟨es, hes, fun e he => List.mem_append_right _ (hsub e he)⟩

theorem analyzeMakeModule_http {fs ps ms : Dict} {name : String} {idv : JVal}
    (hname : dictGet fs "module" = some (.str name))
    (hid : dictGet fs "id" = some idv)
    (hg : pyIn "google-sheets" name = false)
    (ho : pyIn "openai" name = false)
    (hh : pyIn "http" name = true)
    (hp : asObjD (dictGet fs "parameters") = .ok ps)
    (hm : asObjD (dictGet fs "mapper") = .ok ms)
    (hpu : jTruthyOpt (dictGet ps "url") = false)
    (hmu : jTruthyOpt (dictGet ms "url") = false) :
    analyzeMakeModule (.obj fs) = .ok
      [⟨.parameter_missing, pyStr idv, name,
        "Missing required URL parameter",
        "Add URL in mapper or parameters", "critical"⟩] := by
  simp [analyzeMakeModule, asObj, asStr, hname, hid, hp, hm, hg, ho, hh,
    hpu, hmu, Bind.bind, Except.bind]

/-- C8, amended: for every Make blueprint whose flow contains, at some
index, an object module with an `"id"` field, an identifier that contains
`"http"` but neither `"google-sheets"` nor `"openai"` (the two categories
checked first), and no truthy `"url"` in its parameter map or data-mapping
map, the validator emits the missing-required-field / critical URL finding
for that node, and whenever Auto-Fix completes on those findings it sets
the literal placeholder URL in that node's data-mapping map.  (Without an
`"id"` field the finding carries `"unknown"` while the fixer compares
against `str(None) = "None"`, so the node is never patched — see the
counterexample.) -/
theorem C8_amended (make_json : Dict) (flow : List JVal) (j : Nat)
    (hj : j < flow.length) (fs ps ms : Dict) (idv : JVal) (name : String)
    (errs : List WorkflowError) (fixed : Dict)
    (hflow : dictGet make_json "flow" = some (.arr flow))
    (hmod : flow.get ⟨j, hj⟩ = .obj fs)
    (hname : dictGet fs "module" = some (.str name))
    (hid : dictGet fs "id" = some idv)
    (hg : pyIn "google-sheets" name = false)
    (ho : pyIn "openai" name = false)
    (hh : pyIn "http" name = true)
    (hp : asObjD (dictGet fs "parameters") = .ok ps)
    (hm : asObjD (dictGet fs "mapper") = .ok ms)
    (hpu : jTruthyOpt (dictGet ps "url") = false)
    (hmu : jTruthyOpt (dictGet ms "url") = false)
    (hana : analyze_make_workflow make_json = .ok errs)
    (hfix : fix_make_workflow make_json errs = .ok fixed) :
    (⟨.parameter_missing, pyStr idv, name,
      "Missing required URL parameter",
      "Add URL in mapper or parameters", "critical"⟩ : WorkflowError) ∈ errs ∧
    ∃ flow2, dictGet fixed "flow" = some (.arr flow2) ∧
      ∃ hj2 : j < flow2.length, ∃ fs2, flow2.get ⟨j, hj2⟩ = .obj fs2 ∧
        mapperUrlSet fs2 := by
  simp only [analyze_make_workflow] at hana
  obtain ⟨flow', hfl, hana⟩ := ebind_ok.mp hana
  rw [hflow] at hfl
  obtain rfl : flow = flow' := by simpa [asList] using hfl
  obtain ⟨es, hes, hsub⟩ := analyzeMakeFlow_at hana j hj
  rw [hmod, analyzeMakeModule_http hname hid hg ho hh hp hm hpu hmu] at hes
  obtain rfl : [(⟨.parameter_missing, pyStr idv, name,
      "Missing required URL parameter",
      "Add URL in mapper or parameters", "critical"⟩ : WorkflowError)] = es := by
    injection hes
  have hmem := hsub _ (List.mem_singleton.mpr rfl)
  refine ⟨hmem, ?_⟩
  cases herrs : errs with
  | nil => rw [herrs] at hmem; exact absurd hmem (by simp)
  | cons e0 es0 =>
    rw [herrs] at hfix hmem
    simp only [fix_make_workflow, hflow] at hfix
    obtain ⟨f2, hfm, hset⟩ := emap_ok.mp hfix
    subst hset
    refine ⟨f2, dictGet_dictSet_self _ _ _, ?_⟩
    obtain ⟨l1, l2, hdecomp⟩ := List.append_of_mem hmem
    rw [hdecomp, fixMakeFlow_append] at hfm
    obtain ⟨fA, hA, hrest⟩ := ebind_ok.mp hfm
    simp only [fixMakeFlow] at hrest
    obtain ⟨fB, hB, hC⟩ := ebind_ok.mp hrest
    have RA := fixFlow_Rprop hA
    have RB := fixOne_prop hB
    have RC := fixFlow_Rprop hC
    have hjA : j < fA.length := RA.length_eq ▸ hj
    have hjB : j < fB.length := RB.length_eq ▸ hjA
    have hjC : j < f2.length := RC.length_eq ▸ hjB
    have hRA := (List.forall₂_iff_get.mp RA).2 j hj hjA
    obtain ⟨fsA, hgetA, hidA, _⟩ := hRA fs hmod
    have hRB := (List.forall₂_iff_get.mp RB).2 j hjA hjB
    obtain ⟨fsA', fsB, hgetA', hgetB, hpatch⟩ := hRB
    obtain rfl : fsA = fsA' := by
      rw [hgetA] at hgetA'
      injection hgetA'
    have hidAv : dictGet fsA "id" = some idv := hidA.trans hid
    have hurlB : mapperUrlSet fsB := by
      refine patch_url_sets hpatch ?_ rfl rfl rfl rfl
      rw [hidAv]
      simp [pyStrOpt]
    have hRC := (List.forall₂_iff_get.mp RC).2 j hjB hjC
    obtain ⟨fsC, hgetC, _, himC⟩ := hRC fsB hgetB
    exact ⟨hjC, fsC, hgetC, himC hurlB⟩

/-- Id-less HTTP module used by the C8 counterexample. -/
def cx8flow : List JVal :=
  [.obj [("module", .str "http:request"), ("parameters", .obj [])]]

/-- Blueprint whose single HTTP module has no `"id"` field. -/
def cx8 : Dict := [("flow", .arr cx8flow)]

/-- C8, counterexample: the validator flags the id-less HTTP module
(module reference `"unknown"`), but Auto-Fix, which matches nodes by
`str(module.get("id"))` (= `"None"` here), returns the blueprint
completely unchanged — no placeholder URL is set on the node. -/
theorem C8_counterexample :
    analyze_make_workflow cx8 = .ok
      [⟨.parameter_missing, "unknown", "http:request",
        "Missing required URL parameter",
        "Add URL in mapper or parameters", "critical"⟩] ∧
    fix_make_workflow cx8
      [⟨.parameter_missing, "unknown", "http:request",
        "Missing required URL parameter",
        "Add URL in mapper or parameters", "critical"⟩] = .ok cx8 :=
  ⟨rfl, rfl⟩

/-- Flow used by the C8 witness: one HTTP module with id 7 and no URL. -/
def flow8 : List JVal :=
  [.obj [("id", .num 7), ("module", .str "http:ActionSendData"),
         ("parameters", .obj [])]]

/-- Blueprint used by the C8 witness. -/
def wf8 : Dict := [("flow", .arr flow8)]

/-- The findings the validator returns on `wf8`. -/
def errs8 : List WorkflowError :=
  [⟨.parameter_missing, "7", "http:ActionSendData",
    "Missing required URL parameter",
    "Add URL in mapper or parameters", "critical"⟩]

/-- C8, witness: on a module that does carry an id, the finding is emitted
and Auto-Fix sets the placeholder URL in the module's mapper. -/
theorem C8_witness :
    ∃ fixed, fix_make_workflow wf8 errs8 = .ok fixed ∧
      ((⟨.parameter_missing, "7", "http:ActionSendData",
         "Missing required URL parameter",
         "Add URL in mapper or parameters", "critical"⟩ : WorkflowError)
        ∈ errs8 ∧
       ∃ flow2, dictGet fixed "flow" = some (.arr flow2) ∧
         ∃ hj2 : 0 < flow2.length, ∃ fs2, flow2.get ⟨0, hj2⟩ = .obj fs2 ∧
           mapperUrlSet fs2) := by
  obtain ⟨fixed, hfix⟩ : ∃ x, fix_make_workflow wf8 errs8 = .ok x := ⟨_, rfl⟩
  exact ⟨fixed, hfix,
    C8_amended wf8 flow8 0 (by decide)
      [("id", .num 7), ("module", .str "http:ActionSendData"),
       ("parameters", .obj [])]
      [] [] (.num 7) "http:ActionSendData" errs8 fixed
      rfl rfl rfl rfl (by decide) (by decide) (by decide)
      rfl rfl rfl rfl rfl hfix⟩

end AutoFlow
